import Mathlib

/-!
Verification development for the Tool Lifecycle & Orchestration Engine of
`tool_manager.py` (AI security tool arsenal manager).

The Python source is shallowly embedded: pure helpers become Lean functions
over `List Char` / `String`; the stateful engine methods become explicit
state-passing functions over a `Tools` map, a `World` (filesystem view plus
the on-disk state file) and an `Env` of external effects (subprocess runs,
the GitHub oracle, the clock).  Subprocess execution, `shutil.rmtree` and
the network are modelled as environment-supplied oracles; every call the
engine makes is additionally recorded in an effect trace (`Eff`) so that
frame claims ("never runs the update command", "no subprocess work") are
statable.  Regular-expression searches from the source are ported as
explicit scanners with Python `re` leftmost/greedy semantics on the ASCII
fragment the tool outputs live in.
-/

/-! ### Character classes and low-level string helpers (Python `re` / `str`) -/

/-- Python `\s` whitespace class (`[ \t\n\r\f\v]`) on the ASCII fragment. -/
def isPySpace (c : Char) : Bool :=
  c = ' ' || c = '\t' || c = '\n' || c = '\r' || c = '\x0b' || c = '\x0c'

/-- The character class `[:\s]` used by the `version[:\s]+` pattern. -/
def isSepCh (c : Char) : Bool :=
  c = ':' || isPySpace c

/-- Python `\d` restricted to ASCII decimal digits. -/
def isDigitCh (c : Char) : Bool :=
  c.isDigit

/-- The class `[a-f0-9]` under `re.IGNORECASE` (so `A`-`F` match as well). -/
def isHexCI (c : Char) : Bool :=
  c.isDigit || ('a' ≤ c && c ≤ 'f') || ('A' ≤ c && c ≤ 'F')

/-- The class `[a-f0-9]` without flags (case-sensitive, as in `re.fullmatch`). -/
def isLowerHex (c : Char) : Bool :=
  c.isDigit || ('a' ≤ c && c ≤ 'f')

/-- Boolean list-prefix test (`needle` is a prefix of `hay`). -/
def hasPfx : List Char → List Char → Bool
  | [], _ => true
  | _ :: _, [] => false
  | a :: as, b :: bs => a = b && hasPfx as bs

/-- Python `needle in hay` substring containment on char lists. -/
def containsSubstrL (n : List Char) : List Char → Bool
  | [] => n.isEmpty
  | c :: t => hasPfx n (c :: t) || containsSubstrL n t

/-- Python `needle in hay` on strings. -/
def containsSub (n s : String) : Bool :=
  containsSubstrL n.data s.data

/-- Scanner for Python `str.replace(n, r)` (non-overlapping,
left-to-right), driven by a structural fuel argument so that it reduces
definitionally; each step consumes at least one character, so fuel equal
to the haystack length never runs out. -/
def replaceFuel (n r : List Char) : Nat → List Char → List Char
  | _, [] => []
  | 0, hay => hay
  | fuel + 1, c :: t =>
    match n with
    | [] => c :: t
    | _ :: nrest =>
      if hasPfx n (c :: t) then r ++ replaceFuel n r fuel (t.drop nrest.length)
      else c :: replaceFuel n r fuel t

/-- Python `str.replace(n, r)`: non-overlapping left-to-right replacement.
Only ever used with a non-empty needle (an empty needle is returned
unchanged, a case the source never exercises). -/
def replaceAllL (n r hay : List Char) : List Char :=
  replaceFuel n r hay.length hay

/-- Python `str.strip()` on the ASCII whitespace fragment. -/
def pyStrip (s : List Char) : List Char :=
  ((s.dropWhile isPySpace).reverse.dropWhile isPySpace).reverse

/-- Python `str.lower()` on the ASCII fragment. -/
def toLowerL (s : List Char) : List Char :=
  s.map Char.toLower

/-! ### Version Resolver (`ToolUpdater._get_local_version`, lines 662-688)

The three ordered patterns, each searched with `re.search(...,
re.IGNORECASE | re.MULTILINE)` over `stdout + stderr`:

1. `v?(\d+\.\d+\.\d+)`
2. `version[:\s]+(\S+)`
3. `^([a-f0-9]{7,40})\s*$`

Each scanner returns the captured group of the leftmost match, mirroring
the greedy/backtracking behaviour of the Python engine on these patterns. -/

/-- Match `\d+\.\d+\.\d+` at the head of `cs`, returning the capture.
`\d+` is greedy and must be followed by a literal dot, which forces the
maximal digit run at each of the first two positions. -/
def matchTripleAt (cs : List Char) : Option (List Char) :=
  let d1 := cs.takeWhile isDigitCh
  if d1.isEmpty then none
  else
    match cs.drop d1.length with
    | [] => none
    | c1 :: rest1 =>
      if c1 = '.' then
        let d2 := rest1.takeWhile isDigitCh
        if d2.isEmpty then none
        else
          match rest1.drop d2.length with
          | [] => none
          | c2 :: rest2 =>
            if c2 = '.' then
              let d3 := rest2.takeWhile isDigitCh
              if d3.isEmpty then none
              else some (d1 ++ '.' :: (d2 ++ '.' :: d3))
            else none
      else none

/-- Match `v?(\d+\.\d+\.\d+)` at the head of `cs` (the optional `v` is
case-insensitive and tried first, as the greedy `?` does). -/
def tryTripleAt (cs : List Char) : Option (List Char) :=
  match cs with
  | [] => none
  | c :: rest =>
    if c = 'v' || c = 'V' then
      match matchTripleAt rest with
      | some r => some r
      | none => matchTripleAt cs
    else matchTripleAt cs

/-- Leftmost search for pattern 1 over the whole text. -/
def searchTripleL : List Char → Option (List Char)
  | [] => none
  | c :: t =>
    match tryTripleAt (c :: t) with
    | some r => some r
    | none => searchTripleL t

/-- Case-insensitive test that `cs` starts with the literal `version`. -/
def startsWithVersionCI (cs : List Char) : Bool :=
  (cs.take 7).map Char.toLower = "version".data

/-- Match `[:\s]+(\S+)` at the head of `cs` with the Python engine's
greedy-then-backtrack order: the longest separator run whose following
character can start `\S+` wins. -/
def sepThenToken (cs : List Char) : Option (List Char) :=
  match cs with
  | [] => none
  | c :: rest =>
    if isSepCh c then
      match sepThenToken rest with
      | some tok => some tok
      | none =>
        let tok := rest.takeWhile (fun d => !(isPySpace d))
        if tok.isEmpty then none else some tok
    else none

/-- Match `version[:\s]+(\S+)` at the head of `cs`. -/
def tryVersionAt (cs : List Char) : Option (List Char) :=
  if startsWithVersionCI cs then sepThenToken (cs.drop 7) else none

/-- Leftmost search for pattern 2 over the whole text. -/
def searchVersionL : List Char → Option (List Char)
  | [] => none
  | c :: t =>
    match tryVersionAt (c :: t) with
    | some r => some r
    | none => searchVersionL t

/-- Split on `'\n'` (the only line terminator `re.MULTILINE` recognises). -/
def splitOnNL : List Char → List (List Char)
  | [] => [[]]
  | c :: t =>
    if c = '\n' then [] :: splitOnNL t
    else
      match splitOnNL t with
      | [] => [[c]]
      | l :: ls => (c :: l) :: ls

/-- Match `^([a-f0-9]{7,40})\s*$` against one newline-free line: the
maximal case-insensitive hex prefix must be 7-40 characters long and the
rest of the line must be whitespace. -/
def hexLineMatch (line : List Char) : Option (List Char) :=
  let run := line.takeWhile isHexCI
  if 7 ≤ run.length && run.length ≤ 40 && (line.drop run.length).all isPySpace then
    some run
  else none

/-- Leftmost (first-line) search for pattern 3. -/
def searchHexLine : List (List Char) → Option (List Char)
  | [] => none
  | l :: ls =>
    match hexLineMatch l with
    | some r => some r
    | none => searchHexLine ls

/-- The ordered pattern table of `_get_local_version`: first pattern that
matches anywhere wins, and its captured group is returned. -/
def findPatternToken (cs : List Char) : Option (List Char) :=
  match searchTripleL cs with
  | some v => some v
  | none =>
    match searchVersionL cs with
    | some v => some v
    | none => searchHexLine (splitOnNL cs)

/-- `re.fullmatch(r'[a-f0-9]{8,40}', ver)` — note: case-SENSITIVE. -/
def isShortHashToken (v : List Char) : Bool :=
  v.all isLowerHex && 8 ≤ v.length && v.length ≤ 40

/-- The pure tail of `_get_local_version` after the version command has run:
given the command's success flag, stdout and stderr, produce the version
token (lines 670-688 of the source). -/
def resolveVersion (success : Bool) (stdout stderr : String) : String :=
  if success then
    match findPatternToken (stdout.data ++ stderr.data) with
    | some ver => if isShortHashToken ver then String.mk (ver.take 7) else String.mk ver
    | none => if stdout = "" then "installed" else String.mk ((pyStrip stdout.data).take 20)
  else "unknown"

example : resolveVersion true "v1.2.3 release" "" = "1.2.3" := by decide
example : resolveVersion true "" "" = "installed" := by decide
example : resolveVersion false "v1.2.3" "" = "unknown" := by decide
example :
    resolveVersion true "0123456789abcdef0123456789abcdef01234567" "" = "0123456" := by decide
example : resolveVersion true "nuclei version: 3.1.0 core" "" = "3.1.0" := by decide
example : resolveVersion true "some banner text here" "" = "some banner text her" := by decide

/-! ### Data model (`SecurityTool`, `ToolState`, results) -/

/-- `ToolType` enum from the source. -/
inductive ToolType
  | vulnerabilityScanner
  | sqlInjection
  | xss
  | network
  | fuzzer
  | recon
deriving DecidableEq

/-- The immutable, catalog-provided part of the `SecurityTool` dataclass
(the four mutable fields live in `ToolState`; `install_path` is a path
string, `none` modelling the dataclass default `None`).  The field
`run_cmd` of the source is called `runCmd` here (likewise `runCmdWin`). -/
structure SecurityTool where
  name : String
  repo : String
  tool_type : ToolType
  description : String
  install_cmd : String
  install_cmd_win : String
  runCmd : String
  runCmdWin : String
  update_cmd : String
  update_cmd_win : String
  version_cmd : String
  version_cmd_win : String
  install_path : Option String
  requires_go : Bool
deriving DecidableEq

/-- The mutable per-tool state of the `SecurityTool` dataclass, with the
source's defaults `installed=False`, `local_version=""`,
`latest_version=""`, `last_updated=""`. -/
structure ToolState where
  installed : Bool
  local_version : String
  latest_version : String
  last_updated : String
deriving DecidableEq

/-- Dataclass defaults for the mutable fields. -/
def initToolState : ToolState :=
  { installed := false, local_version := "", latest_version := "", last_updated := "" }

/-- The engine's mutable state: tool key to `ToolState`. -/
abbrev Tools : Type := String → ToolState

/-- Initial state map: every key at the dataclass defaults. -/
def initTools : Tools := fun _ => initToolState

/-- Point update of the state map (assignment to one tool's fields). -/
def setTool (st : Tools) (k : String) (f : ToolState → ToolState) : Tools :=
  fun m => if m = k then f (st m) else st m

/-- The static catalog: association list tool key to descriptor, in the
insertion order of `ToolRegistry.get_all_tools`. -/
abbrev Catalog : Type := List (String × SecurityTool)

/-- Python `self.tools[tool_name]` / `tool_name in self.tools`. -/
def lookupTool : Catalog → String → Option SecurityTool
  | [], _ => none
  | (k, t) :: rest, n => if n = k then some t else lookupTool rest n

/-- A structured finding.  `extra` holds the `protocol` key for
nuclei-style findings and the `detail` key otherwise (the Python dicts
differ only in that key's name). -/
structure Finding where
  severity : String
  id : String
  extra : String
deriving DecidableEq

/-- `ToolExecutionResult` dataclass.  `execution_time` is in whole
seconds; wall-clock measurement is abstracted by `Env.elapsed`. -/
structure ToolExecutionResult where
  tool_name : String
  command : String
  success : Bool
  output : String
  error : String
  execution_time : Nat
  findings : List Finding
deriving DecidableEq

/-- The record a successful oracle query produces (from
`get_latest_release` / `get_latest_commit`); an empty dict is `none` at
use sites. -/
structure LatestInfo where
  version : String
  published_at : String
  html_url : String
  body : String
deriving DecidableEq

/-- One tool's persisted record in `tool_state.json`. -/
structure SavedTriple where
  installed : Bool
  local_version : String
  last_updated : String
deriving DecidableEq

/-- The state file: an ordered record of per-tool triples (JSON
serialisation round-trips these fields faithfully and is abstracted). -/
abbrev SaveFile : Type := List (String × SavedTriple)

/-- The filesystem view the Local Availability Prober reads:
`Path.exists`, non-emptiness of a directory (`next(path.iterdir())`
succeeding), and `shutil.which` resolvability of a command name. -/
structure FS where
  pathExists : String → Bool
  dirHasEntries : String → Bool
  whichOk : String → Bool

/-- Mutable world outside the engine's in-memory state: the filesystem
and the on-disk state file (`none` = absent or unreadable). -/
structure World where
  fs : FS
  file : Option SaveFile

/-- Outcome of starting one subprocess: it completed with an exit code,
hit the timeout (`subprocess.TimeoutExpired`), or failed to launch. -/
inductive ProcOutcome
  | completed (rc : Int) (out err : String)
  | timedOut
  | failedLaunch (msg : String)

/-- External effects the engine consumes: subprocess execution (which may
change the filesystem), `shutil.rmtree`, the clock, the elapsed-time
measurement, the platform flag, and the GitHub release oracle keyed by
repository id (an empty API result is `none`). -/
structure Env where
  isWindows : Bool
  now : String
  elapsed : Nat
  proc : FS → String → ProcOutcome × FS
  rmtree : FS → String → Bool × FS
  release : String → Option LatestInfo

/-- Call sites of `_run_command` / `subprocess.run` within the engine
(used to tag the effect trace). -/
inductive CSite
  | reqGit
  | reqGo
  | install
  | run
  | update
  | version
deriving DecidableEq

/-- Observable effects of one engine operation, in order. -/
inductive Eff
  | runCmd (site : CSite) (cmd : String)
  | saveState
  | oracleQuery (repo : String)
  | rmtreeCall (path : String)
deriving DecidableEq

/-! ### Module tables and the tool registry -/

/-- `TOOL_REQUIRED_FILES` module table. -/
def toolRequiredFiles (n : String) : List String :=
  if n = "sqlmap" then ["sqlmap.py"]
  else if n = "xsstrike" then ["xsstrike.py"]
  else if n = "dirsearch" then ["dirsearch.py"]
  else if n = "paramspider" then ["paramspider/main.py"]
  else if n = "nmap-vulners" then ["vulners.nse"]
  else []

/-- `TOOL_COMMAND_ALIASES` module table (`none` = key absent; all stored
alias lists are non-empty, so Python's falsy test coincides). -/
def toolCommandAliases (n : String) : Option (List String) :=
  if n = "dirsearch" then some ["dirsearch"]
  else if n = "paramspider" then some ["paramspider"]
  else if n = "nuclei" then some ["nuclei"]
  else if n = "httpx" then some ["httpx"]
  else if n = "subfinder" then some ["subfinder"]
  else none

/-- `ToolRegistry.get_all_tools`, parameterised by the detected python
executable (`PYTHON_CMD`) and the tools base directory (`TOOLS_BASE_DIR`);
`Path / name` is modelled as `base ++ "/" ++ name`. -/
def getAllTools (py base : String) : Catalog :=
  [ ("sqlmap",
     { name := "SQLMap"
       repo := "sqlmapproject/sqlmap"
       tool_type := ToolType.sqlInjection
       description := "Automatic SQL Injection detection and exploitation tool"
       install_cmd := "git clone --depth 1 https://github.com/sqlmapproject/sqlmap.git \"\x7bpath\x7d\""
       install_cmd_win := "git clone --depth 1 https://github.com/sqlmapproject/sqlmap.git \"\x7bpath\x7d\""
       runCmd := py ++ " \"\x7bpath\x7d/sqlmap.py\" -u \"\x7btarget\x7d\" --batch"
       runCmdWin := "python \"\x7bpath\x7d\\sqlmap.py\" -u \"\x7btarget\x7d\" --batch"
       update_cmd := "cd \"\x7bpath\x7d\" && git pull"
       update_cmd_win := "cd /d \"\x7bpath\x7d\" && git pull"
       version_cmd := py ++ " \"\x7bpath\x7d/sqlmap.py\" --version"
       version_cmd_win := "python \"\x7bpath\x7d\\sqlmap.py\" --version"
       install_path := some (base ++ "/sqlmap")
       requires_go := false }),
    ("xsstrike",
     { name := "XSStrike"
       repo := "s0md3v/XSStrike"
       tool_type := ToolType.xss
       description := "Advanced XSS detection tool (run via python xsstrike.py)"
       install_cmd := "git clone --depth 1 https://github.com/s0md3v/XSStrike.git \"\x7bpath\x7d\""
       install_cmd_win := "git clone --depth 1 https://github.com/s0md3v/XSStrike.git \"\x7bpath\x7d\""
       runCmd := py ++ " \"\x7bpath\x7d/xsstrike.py\" -u \"\x7btarget\x7d\""
       runCmdWin := "python \"\x7bpath\x7d\\xsstrike.py\" -u \"\x7btarget\x7d\""
       update_cmd := "cd \"\x7bpath\x7d\" && git pull"
       update_cmd_win := "cd /d \"\x7bpath\x7d\" && git pull"
       version_cmd := py ++ " \"\x7bpath\x7d/xsstrike.py\" -h"
       version_cmd_win := "python \"\x7bpath\x7d\\xsstrike.py\" -h"
       install_path := some (base ++ "/XSStrike")
       requires_go := false }),
    ("dirsearch",
     { name := "Dirsearch"
       repo := "maurosoria/dirsearch"
       tool_type := ToolType.recon
       description := "Web path bruteforce tool"
       install_cmd := "git clone --depth 1 https://github.com/maurosoria/dirsearch.git \"\x7bpath\x7d\" && pip install -r \"\x7bpath\x7d/requirements.txt\""
       install_cmd_win := "git clone --depth 1 https://github.com/maurosoria/dirsearch.git \"\x7bpath\x7d\" && pip install -r \"\x7bpath\x7d\\requirements.txt\""
       runCmd := py ++ " \"\x7bpath\x7d/dirsearch.py\" -u \"\x7btarget\x7d\""
       runCmdWin := "python \"\x7bpath\x7d\\dirsearch.py\" -u \"\x7btarget\x7d\""
       update_cmd := "cd \"\x7bpath\x7d\" && git pull"
       update_cmd_win := "cd /d \"\x7bpath\x7d\" && git pull"
       version_cmd := py ++ " \"\x7bpath\x7d/dirsearch.py\" --version"
       version_cmd_win := "python \"\x7bpath\x7d\\dirsearch.py\" --version"
       install_path := some (base ++ "/dirsearch")
       requires_go := false }),
    ("paramspider",
     { name := "ParamSpider"
       repo := "devanshbatham/ParamSpider"
       tool_type := ToolType.recon
       description := "Mining URLs from web archives for parameter discovery"
       install_cmd := "git clone --depth 1 https://github.com/devanshbatham/ParamSpider.git \"\x7bpath\x7d\" && PYTHONUTF8=1 " ++ py ++ " -m pip install \"\x7bpath\x7d\""
       install_cmd_win := "git clone --depth 1 https://github.com/devanshbatham/ParamSpider.git \"\x7bpath\x7d\" && set PYTHONUTF8=1&& python -m pip install \"\x7bpath\x7d\""
       runCmd := py ++ " -m paramspider.main -d \"\x7btarget\x7d\""
       runCmdWin := "python -m paramspider.main -d \"\x7btarget\x7d\""
       update_cmd := "cd \"\x7bpath\x7d\" && git pull && PYTHONUTF8=1 " ++ py ++ " -m pip install --upgrade \"\x7bpath\x7d\""
       update_cmd_win := "cd /d \"\x7bpath\x7d\" && git pull && set PYTHONUTF8=1&& python -m pip install --upgrade \"\x7bpath\x7d\""
       version_cmd := "cd \"\x7bpath\x7d\" && git rev-parse --short HEAD"
       version_cmd_win := "cd /d \"\x7bpath\x7d\" && git rev-parse --short HEAD"
       install_path := some (base ++ "/ParamSpider")
       requires_go := false }),
    ("nuclei-templates",
     { name := "Nuclei Templates"
       repo := "projectdiscovery/nuclei-templates"
       tool_type := ToolType.vulnerabilityScanner
       description := "Nuclei vulnerability templates (CVE, misconfigs, etc.)"
       install_cmd := "git clone https://github.com/projectdiscovery/nuclei-templates.git \"\x7bpath\x7d\""
       install_cmd_win := "git clone https://github.com/projectdiscovery/nuclei-templates.git \"\x7bpath\x7d\""
       runCmd := ""
       runCmdWin := ""
       update_cmd := "cd \"\x7bpath\x7d\" && git pull"
       update_cmd_win := "cd /d \"\x7bpath\x7d\" && git pull"
       version_cmd := "cd \"\x7bpath\x7d\" && git rev-parse --short HEAD"
       version_cmd_win := "cd /d \"\x7bpath\x7d\" && git rev-parse --short HEAD"
       install_path := some (base ++ "/nuclei-templates")
       requires_go := false }),
    ("nuclei",
     { name := "Nuclei"
       repo := "projectdiscovery/nuclei"
       tool_type := ToolType.vulnerabilityScanner
       description := "Fast and customizable vulnerability scanner (Go required)"
       install_cmd := "go install -v github.com/projectdiscovery/nuclei/v3/cmd/nuclei@latest"
       install_cmd_win := "go install -v github.com/projectdiscovery/nuclei/v3/cmd/nuclei@latest"
       runCmd := "nuclei -u \"\x7btarget\x7d\""
       runCmdWin := "nuclei -u \x7btarget\x7d"
       update_cmd := "nuclei -ut"
       update_cmd_win := "nuclei -ut"
       version_cmd := "nuclei -version"
       version_cmd_win := "nuclei -version"
       install_path := some (base ++ "/nuclei")
       requires_go := true }),
    ("httpx",
     { name := "httpx"
       repo := "projectdiscovery/httpx"
       tool_type := ToolType.recon
       description := "Fast HTTP probe tool (Go required)"
       install_cmd := "go install -v github.com/projectdiscovery/httpx/cmd/httpx@latest"
       install_cmd_win := "go install -v github.com/projectdiscovery/httpx/cmd/httpx@latest"
       runCmd := "echo \"\x7btarget\x7d\" | httpx -tech-detect"
       runCmdWin := "httpx -u \x7btarget\x7d -tech-detect -silent"
       update_cmd := "go install -v github.com/projectdiscovery/httpx/cmd/httpx@latest"
       update_cmd_win := "go install -v github.com/projectdiscovery/httpx/cmd/httpx@latest"
       version_cmd := "httpx -version"
       version_cmd_win := "httpx -version"
       install_path := some (base ++ "/httpx")
       requires_go := true }),
    ("subfinder",
     { name := "Subfinder"
       repo := "projectdiscovery/subfinder"
       tool_type := ToolType.recon
       description := "Fast subdomain discovery tool (Go required)"
       install_cmd := "go install -v github.com/projectdiscovery/subfinder/v2/cmd/subfinder@latest"
       install_cmd_win := "go install -v github.com/projectdiscovery/subfinder/v2/cmd/subfinder@latest"
       runCmd := "subfinder -d \"\x7btarget\x7d\""
       runCmdWin := "subfinder -d \x7btarget\x7d"
       update_cmd := "go install -v github.com/projectdiscovery/subfinder/v2/cmd/subfinder@latest"
       update_cmd_win := "go install -v github.com/projectdiscovery/subfinder/v2/cmd/subfinder@latest"
       version_cmd := "subfinder -version"
       version_cmd_win := "subfinder -version"
       install_path := some (base ++ "/subfinder")
       requires_go := true }),
    ("nmap-vulners",
     { name := "Nmap Vulners"
       repo := "vulnersCom/nmap-vulners"
       tool_type := ToolType.network
       description := "Nmap vulnerability detection scripts (Nmap required)"
       install_cmd := "git clone https://github.com/vulnersCom/nmap-vulners.git \"\x7bpath\x7d\""
       install_cmd_win := "git clone https://github.com/vulnersCom/nmap-vulners.git \"\x7bpath\x7d\""
       runCmd := "nmap -sV --script=\"\x7bpath\x7d/vulners.nse\" \"\x7btarget\x7d\""
       runCmdWin := "nmap -sV --script=\"\x7bpath\x7d\\vulners.nse\" \x7btarget\x7d"
       update_cmd := "cd \"\x7bpath\x7d\" && git pull"
       update_cmd_win := "cd /d \"\x7bpath\x7d\" && git pull"
       version_cmd := "cd \"\x7bpath\x7d\" && git rev-parse --short HEAD"
       version_cmd_win := "cd /d \"\x7bpath\x7d\" && git rev-parse --short HEAD"
       install_path := some (base ++ "/nmap-vulners")
       requires_go := false }) ]

/-! ### Local Availability Prober (`_path_has_content`, `_command_exists`,
`_is_tool_available`, lines 421-456) -/

/-- `ToolUpdater._path_has_content`. -/
def pathHasContent (fs : FS) (p : Option String) : Bool :=
  match p with
  | none => false
  | some path => fs.pathExists path && fs.dirHasEntries path

/-- `ToolUpdater._command_exists`. -/
def commandExists (fs : FS) (toolName : String) (tool : SecurityTool) : Bool :=
  match toolCommandAliases toolName with
  | some cands => cands.any fs.whichOk
  | none =>
    let normalized := String.mk (replaceAllL " ".data [] (toLowerL tool.name.data))
    [toolName, normalized].any fs.whichOk

/-- `ToolUpdater._is_tool_available`: the availability prober, derived
from the filesystem alone. -/
def isToolAvailable (fs : FS) (toolName : String) (tool : SecurityTool) : Bool :=
  if containsSub "git clone" tool.install_cmd then
    match tool.install_path with
    | none => false
    | some path =>
      if !(fs.pathExists path) then false
      else
        let required := toolRequiredFiles toolName
        if !required.isEmpty then
          required.all (fun rel => fs.pathExists (path ++ "/" ++ rel))
        else pathHasContent fs (some path)
  else if containsSub "pip install" tool.install_cmd || tool.requires_go then
    commandExists fs toolName tool
  else
    match tool.install_path with
    | some path => fs.pathExists path
    | none => false

/-! ### Engine plumbing: command lookup, subprocess wrapper, state file -/

/-- `ToolUpdater._get_command`: select the platform-appropriate template
(`cmd_map.get(cmd_type, '')`; the requirement-probe sites have no
template). -/
def getCommand (isWin : Bool) (tool : SecurityTool) (k : CSite) : String :=
  match k with
  | CSite.install => if isWin then tool.install_cmd_win else tool.install_cmd
  | CSite.run => if isWin then tool.runCmdWin else tool.runCmd
  | CSite.update => if isWin then tool.update_cmd_win else tool.update_cmd
  | CSite.version => if isWin then tool.version_cmd_win else tool.version_cmd
  | _ => ""

/-- `str(install_path)` (Python renders `None` as the string `"None"`). -/
def pathStr : Option String → String
  | some p => p
  | none => "None"

/-- `cmd.format(path=tool.install_path)`. -/
def pyFormatPath (cmd : String) (p : Option String) : String :=
  String.mk (replaceAllL "\x7bpath\x7d".data (pathStr p).data cmd.data)

/-- `cmd.format(path=..., target=...)` as used by `ToolExecutor.execute`. -/
def pyFormatRun (cmd : String) (p : Option String) (target : String) : String :=
  String.mk (replaceAllL "\x7btarget\x7d".data target.data
    (replaceAllL "\x7bpath\x7d".data (pathStr p).data cmd.data))

/-- Result of `ToolUpdater._run_command`, plus the filesystem after it. -/
structure CmdRes where
  ok : Bool
  out : String
  err : String
  fs : FS

/-- `ToolUpdater._run_command`: run a shell command, mapping the three
subprocess outcomes onto the `(success, stdout, stderr)` triple the
source returns (`cwd`/`timeout` influence only the external outcome and
are absorbed by `Env.proc`). -/
def runShell (env : Env) (fs : FS) (cmd : String) : CmdRes :=
  match env.proc fs cmd with
  | (ProcOutcome.completed rc out err, fs') => { ok := rc = 0, out := out, err := err, fs := fs' }
  | (ProcOutcome.timedOut, fs') => { ok := false, out := "", err := "Command execution timed out", fs := fs' }
  | (ProcOutcome.failedLaunch msg, fs') => { ok := false, out := "", err := msg, fs := fs' }

/-- Result of `_check_requirements`, with filesystem and effect trace. -/
structure ReqRes where
  ok : Bool
  msg : String
  fs : FS
  effs : List Eff

/-- `ToolUpdater._check_requirements`: `git --version`, and `go version`
when the descriptor requires Go. -/
def checkRequirements (env : Env) (fs : FS) (tool : SecurityTool) : ReqRes :=
  let r1 := runShell env fs "git --version"
  let e1 : List Eff := [Eff.runCmd CSite.reqGit "git --version"]
  if !r1.ok then
    { ok := false, msg := "Git is not installed. https://git-scm.com/download/win", fs := r1.fs, effs := e1 }
  else if tool.requires_go then
    let r2 := runShell env r1.fs "go version"
    let e2 := e1 ++ [Eff.runCmd CSite.reqGo "go version"]
    if !r2.ok then
      { ok := false, msg := "Go is not installed. https://go.dev/dl/", fs := r2.fs, effs := e2 }
    else { ok := true, msg := "OK", fs := r2.fs, effs := e2 }
  else { ok := true, msg := "OK", fs := r1.fs, effs := e1 }

/-- Result of resolving the local version, with filesystem and trace. -/
structure VerRes where
  version : String
  fs : FS
  effs : List Eff

/-- `ToolUpdater._get_local_version`: run the version-check command and
feed its outcome to the Version Resolver (`"unknown"` when the
descriptor has no version command). -/
def getLocalVersion (env : Env) (fs : FS) (tool : SecurityTool) : VerRes :=
  let vcmd := getCommand env.isWindows tool CSite.version
  if vcmd = "" then { version := "unknown", fs := fs, effs := [] }
  else
    let cmd := pyFormatPath vcmd tool.install_path
    let r := runShell env fs cmd
    { version := resolveVersion r.ok r.out r.err, fs := r.fs, effs := [Eff.runCmd CSite.version cmd] }

/-- `ToolUpdater._save_state`: serialise the three persisted fields of
every catalog tool, in catalog order. -/
def saveStateFile (cat : Catalog) (st : Tools) : SaveFile :=
  cat.map (fun p =>
    (p.1, { installed := (st p.1).installed
            local_version := (st p.1).local_version
            last_updated := (st p.1).last_updated }))

/-- The per-entry assignment performed by `_load_state`'s loop body. -/
def applyEntry (cat : Catalog) (st : Tools) (p : String × SavedTriple) : Tools :=
  if (lookupTool cat p.1).isSome then
    setTool st p.1 (fun t =>
      { t with installed := p.2.installed
               local_version := p.2.local_version
               last_updated := p.2.last_updated })
  else st

/-- `ToolUpdater._load_state`: absent or unreadable file leaves the
state untouched; otherwise every entry whose key is a catalog tool is
applied. -/
def loadState (cat : Catalog) (file : Option SaveFile) (st : Tools) : Tools :=
  match file with
  | none => st
  | some entries => entries.foldl (applyEntry cat) st

/-! ### Lifecycle Engine (`ToolUpdater`) -/

/-- `ToolUpdater._sync_installed_state`, body of the loop: reconcile the
`installed` flag of every tool against the prober, clearing
`local_version`/`last_updated` when a tool flips to unavailable; the
returned flag records whether anything changed. -/
def syncInstalledState (cat : Catalog) (fs : FS) (st : Tools) : Tools × Bool :=
  match cat with
  | [] => (st, false)
  | (n, tool) :: rest =>
    let actual := isToolAvailable fs n tool
    if (st n).installed ≠ actual then
      let st1 := setTool st n (fun t =>
        if actual then { t with installed := true }
        else { t with installed := false, local_version := "", last_updated := "" })
      ((syncInstalledState rest fs st1).1, true)
    else syncInstalledState rest fs st

/-- `_sync_installed_state` including its conditional `_save_state`. -/
def syncAndSave (cat : Catalog) (fs : FS) (st : Tools) (file : Option SaveFile) :
    Tools × Option SaveFile × List Eff :=
  let r := syncInstalledState cat fs st
  if r.2 then (r.1, some (saveStateFile cat r.1), [Eff.saveState])
  else (r.1, file, [])

/-- `ToolUpdater.__init__`: defaults, `_load_state`, then
`_sync_installed_state` (startup reconcile). -/
def newUpdater (cat : Catalog) (w : World) : Tools × World × List Eff :=
  let st1 := loadState cat w.file initTools
  let r := syncAndSave cat w.fs st1 w.file
  (r.1, { w with file := r.2.1 }, r.2.2)

/-- Result of a lifecycle operation: reported success, new state map,
new world, effect trace. -/
structure OpRes where
  ok : Bool
  tools : Tools
  world : World
  effs : List Eff

/-- Result of the stale-clone cleanup step inside `install_tool`. -/
structure CleanRes where
  ok : Bool
  fs : FS
  effs : List Eff

/-- The "Remove broken git clone directories before reinstalling" step of
`install_tool` (lines 576-582). -/
def staleCleanup (env : Env) (fs : FS) (tool : SecurityTool) : CleanRes :=
  if containsSub "git clone" tool.install_cmd then
    match tool.install_path with
    | some p =>
      if fs.pathExists p then
        let r := env.rmtree fs p
        { ok := r.1, fs := r.2, effs := [Eff.rmtreeCall p] }
      else { ok := true, fs := fs, effs := [] }
    | none => { ok := true, fs := fs, effs := [] }
  else { ok := true, fs := fs, effs := [] }

/-- `ToolUpdater.install_tool` (lines 547-614): requirements check,
already-available fast path, stale-clone cleanup, install command, and
the post-install availability requirement
(`is_success = success and self._is_tool_available(...)`). -/
def installTool (cat : Catalog) (env : Env) (w : World) (st : Tools) (name : String) : OpRes :=
  match lookupTool cat name with
  | none => { ok := false, tools := st, world := w, effs := [] }
  | some tool =>
    let req := checkRequirements env w.fs tool
    if !req.ok then
      { ok := false, tools := st, world := { w with fs := req.fs }, effs := req.effs }
    else if isToolAvailable req.fs name tool then
      let st1 := setTool st name (fun t => { t with installed := true })
      let v := getLocalVersion env req.fs tool
      let st2 := setTool st1 name (fun t => { t with local_version := v.version })
      let st3 :=
        if (st2 name).last_updated = "" then
          setTool st2 name (fun t => { t with last_updated := env.now })
        else st2
      { ok := true, tools := st3,
        world := { fs := v.fs, file := some (saveStateFile cat st3) },
        effs := req.effs ++ v.effs ++ [Eff.saveState] }
    else
      let cln := staleCleanup env req.fs tool
      if !cln.ok then
        { ok := false, tools := st, world := { w with fs := cln.fs },
          effs := req.effs ++ cln.effs }
      else
        let icmd := pyFormatPath (getCommand env.isWindows tool CSite.install) tool.install_path
        let r := runShell env cln.fs icmd
        let e3 := req.effs ++ cln.effs ++ [Eff.runCmd CSite.install icmd]
        if r.ok && isToolAvailable r.fs name tool then
          let st1 := setTool st name (fun t => { t with installed := true, last_updated := env.now })
          let v := getLocalVersion env r.fs tool
          let st2 := setTool st1 name (fun t => { t with local_version := v.version })
          { ok := true, tools := st2,
            world := { fs := v.fs, file := some (saveStateFile cat st2) },
            effs := e3 ++ v.effs ++ [Eff.saveState] }
        else
          { ok := false, tools := st, world := { w with fs := r.fs }, effs := e3 }

/-- The decision logic of `GitHubChecker.check_for_updates` (lines
387-402), given the oracle's result for the tool's repository and the
tool's current `local_version`. -/
def checkForUpdatesCore (latest : Option LatestInfo) (localVersion : String) :
    Bool × String × String :=
  match latest with
  | none => (false, "", "Could not fetch version info")
  | some l =>
    if localVersion ≠ "" && localVersion = l.version then
      (false, l.version, "Already up to date")
    else
      (true, l.version,
        "Latest: " ++ l.version ++ " (Current: " ++
          (if localVersion = "" then "Not installed" else localVersion) ++ ")")

/-- One oracle query (`get_latest_release`, falling back internally to
`get_latest_commit`; an empty dict is `none`), with its trace. -/
def queryOracle (env : Env) (repo : String) : Option LatestInfo × List Eff :=
  (env.release repo, [Eff.oracleQuery repo])

/-- `GitHubChecker.check_for_updates` for a tool in state `ts`. -/
def checkForUpdates (env : Env) (tool : SecurityTool) (ts : ToolState) :
    (Bool × String × String) × List Eff :=
  let q := queryOracle env tool.repo
  (checkForUpdatesCore q.1 ts.local_version, q.2)

/-- `ToolUpdater.update_tool` (lines 616-660): unavailable tools are
marked uninstalled, persisted, and delegated to `install_tool`; otherwise
the oracle decides, and the update command runs only when an update is
needed. -/
def updateToolOp (cat : Catalog) (env : Env) (w : World) (st : Tools) (name : String) : OpRes :=
  match lookupTool cat name with
  | none => { ok := false, tools := st, world := w, effs := [] }
  | some tool =>
    if !(isToolAvailable w.fs name tool) then
      let st1 := setTool st name (fun t => { t with installed := false })
      let w1 := { w with file := some (saveStateFile cat st1) }
      let r := installTool cat env w1 st1 name
      { ok := r.ok, tools := r.tools, world := r.world, effs := Eff.saveState :: r.effs }
    else
      let st1 := setTool st name (fun t => { t with installed := true })
      let c := checkForUpdates env tool (st1 name)
      if !c.1.1 then { ok := true, tools := st1, world := w, effs := c.2 }
      else
        let ucmd := pyFormatPath (getCommand env.isWindows tool CSite.update) tool.install_path
        let r := runShell env w.fs ucmd
        let e2 := c.2 ++ [Eff.runCmd CSite.update ucmd]
        if r.ok then
          let st2 := setTool st1 name (fun t =>
            { t with local_version := c.1.2.1, latest_version := c.1.2.1, last_updated := env.now })
          { ok := true, tools := st2,
            world := { fs := r.fs, file := some (saveStateFile cat st2) },
            effs := e2 ++ [Eff.saveState] }
        else { ok := false, tools := st1, world := { w with fs := r.fs }, effs := e2 }

/-- One row of `check_all_updates`'s result list. -/
structure UpdateEntry where
  name : String
  tool_key : String
  current : String
  latest : String
  info : String
deriving DecidableEq

/-- Result of `check_all_updates`: the rows, the (unchanged) state map
and world, and the trace. -/
structure CheckAllRes where
  entries : List UpdateEntry
  tools : Tools
  world : World
  effs : List Eff

/-- Loop body of `check_all_updates` for one catalog entry. -/
def checkAllStep (env : Env) (st : Tools) (acc : List UpdateEntry × List Eff)
    (p : String × SecurityTool) : List UpdateEntry × List Eff :=
  let c := checkForUpdates env p.2 (st p.1)
  (if c.1.1 then
      acc.1 ++ [{ name := p.2.name, tool_key := p.1, current := (st p.1).local_version,
                  latest := c.1.2.1, info := c.1.2.2 }]
    else acc.1,
   acc.2 ++ c.2)

/-- `ToolUpdater.check_all_updates` (lines 710-727): query the oracle for
every catalog tool and collect those needing an update.  The method body
assigns no tool field, writes no state file and runs no command, which
the translation renders by passing `st` and `w` through unchanged. -/
def checkAllUpdates (cat : Catalog) (env : Env) (w : World) (st : Tools) : CheckAllRes :=
  let r := cat.foldl (checkAllStep env st) ([], [])
  { entries := r.1, tools := st, world := w, effs := r.2 }

/-! ### Execution & Finding Extractor (`ToolExecutor`) -/

/-- Match `\[([^\]]+)\]` at the head of `cs`: returns the capture and the
remaining text.  `[^\]]+` is greedy and must be followed by the literal
`]`, so only the maximal bracket-free run can match. -/
def bracketTok (cs : List Char) : Option (List Char × List Char) :=
  match cs with
  | [] => none
  | c :: rest =>
    if c = '[' then
      let tok := rest.takeWhile (fun d => d ≠ ']')
      if tok.isEmpty then none
      else
        match rest.drop tok.length with
        | d :: rest2 => if d = ']' then some (tok, rest2) else none
        | [] => none
    else none

theorem bracketTok_rest_lt : ∀ cs t r, bracketTok cs = some (t, r) → r.length < cs.length := by
  intro cs t r h
  cases cs with
  | nil => simp [bracketTok] at h
  | cons c rest =>
    simp only [bracketTok] at h
    split at h
    · split at h
      · simp at h
      · rcases hd : rest.drop (rest.takeWhile (fun d => d ≠ ']')).length with _ | ⟨d, rest2⟩ <;>
          rw [hd] at h <;> dsimp only at h
        · simp at h
        · split at h
          · injection h with h'
            injection h' with hteq hreq
            subst hreq
            have hlen := congrArg List.length hd
            simp only [List.length_drop, List.length_cons] at hlen
            simp only [List.length_cons]
            omega
          · simp at h
    · simp at h

/-- Match the full nuclei triple `\[([^\]]+)\]\s*\[([^\]]+)\]\s*\[([^\]]+)\]`
at the head of `cs` (the greedy `\s*` must end exactly before a `[`). -/
def tripleBracketAt (cs : List Char) : Option ((String × String × String) × List Char) :=
  match bracketTok cs with
  | none => none
  | some (t1, r1) =>
    match bracketTok (r1.dropWhile isPySpace) with
    | none => none
    | some (t2, r2) =>
      match bracketTok (r2.dropWhile isPySpace) with
      | none => none
      | some (t3, r3) => some ((String.mk t1, String.mk t2, String.mk t3), r3)

theorem dropWhileLenLe (p : Char → Bool) : ∀ l : List Char, (l.dropWhile p).length ≤ l.length := by
  intro l
  induction l with
  | nil => simp
  | cons c t ih =>
    simp only [List.dropWhile]
    split
    · exact Nat.le_trans ih (by simp)
    · simp

theorem tripleBracketAt_rest_lt :
    ∀ cs m r, tripleBracketAt cs = some (m, r) → r.length < cs.length := by
  intro cs m r h
  simp only [tripleBracketAt] at h
  rcases h1 : bracketTok cs with _ | ⟨t1, r1⟩ <;> rw [h1] at h <;> dsimp only at h
  · simp at h
  · rcases h2 : bracketTok (r1.dropWhile isPySpace) with _ | ⟨t2, r2⟩ <;> rw [h2] at h <;>
      dsimp only at h
    · simp at h
    · rcases h3 : bracketTok (r2.dropWhile isPySpace) with _ | ⟨t3, r3⟩ <;> rw [h3] at h <;>
        dsimp only at h
      · simp at h
      · injection h with h'
        injection h' with hm hr
        subst hr
        have l1 := bracketTok_rest_lt _ _ _ h1
        have l2 := bracketTok_rest_lt _ _ _ h2
        have l3 := bracketTok_rest_lt _ _ _ h3
        have d1 := dropWhileLenLe isPySpace r1
        have d2 := dropWhileLenLe isPySpace r2
        omega

/-- `re.findall` of the nuclei pattern: leftmost, non-overlapping. -/
def nucleiMatches : List Char → List (String × String × String)
  | [] => []
  | c :: t =>
    match h : tripleBracketAt (c :: t) with
    | some (m, rest) => m :: nucleiMatches rest
    | none => nucleiMatches t
termination_by l => l.length
decreasing_by
  · exact tripleBracketAt_rest_lt _ _ _ h
  · simp

/-- The fixed indicator list of the XSStrike extractor. -/
def xssIndicators : List String :=
  ["vulnerable", "xss found", "possible xss", "confirmed xss",
   "payload was successful", "payloads were successful"]

/-- `ToolExecutor._extract_findings` (lines 979-1023). -/
def extractFindings (toolName : String) (output : String) : List Finding :=
  if toolName = "nuclei" then
    (nucleiMatches output.data).map (fun m =>
      { severity := m.2.2, id := m.1, extra := m.2.1 })
  else if toolName = "sqlmap" then
    let lowered := String.mk (toLowerL output.data)
    (if containsSub "is vulnerable" lowered then
      [{ severity := "HIGH", id := "SQL Injection", extra := "SQL Injection vulnerability found" }]
     else []) ++
    (if containsSub "parameter" lowered && containsSub "injectable" lowered then
      [{ severity := "HIGH", id := "SQL Injection", extra := "Injectable parameter found" }]
     else [])
  else if toolName = "xsstrike" then
    let lowered := String.mk (toLowerL output.data)
    if xssIndicators.any (fun s => containsSub s lowered) then
      [{ severity := "MEDIUM", id := "XSS", extra := "XSS vulnerability found" }]
    else []
  else []

/-- Result of `ToolExecutor.execute`: the execution result plus the new
engine state, world and trace. -/
structure ExecOpRes where
  res : ToolExecutionResult
  tools : Tools
  world : World
  effs : List Eff

/-- Command construction of `execute`: platform template, placeholder
substitution, double-space collapse plus strip, then verbatim extra
arguments. -/
def buildRunCommand (env : Env) (tool : SecurityTool) (target extraArgs : String) : String :=
  let raw := if env.isWindows then tool.runCmdWin else tool.runCmd
  let cmd0 := pyFormatRun raw tool.install_path target
  let cmd1 := String.mk (pyStrip (replaceAllL "  ".data " ".data cmd0.data))
  if extraArgs ≠ "" then cmd1 ++ " " ++ extraArgs else cmd1

/-- The subprocess phase of `execute`: run the built command and assemble
the `ToolExecutionResult`, extracting findings from stdout only when the
exit status is zero. -/
def runAndExtract (env : Env) (w : World) (st : Tools) (name command : String) : ExecOpRes :=
  match env.proc w.fs command with
  | (ProcOutcome.completed rc out err, fs') =>
    { res := { tool_name := name, command := command, success := rc = 0, output := out,
               error := err, execution_time := env.elapsed,
               findings := extractFindings name (if rc = 0 then out else "") },
      tools := st, world := { w with fs := fs' }, effs := [Eff.runCmd CSite.run command] }
  | (ProcOutcome.timedOut, fs') =>
    { res := { tool_name := name, command := command, success := false, output := "",
               error := "Execution timed out (10 minutes)", execution_time := 600,
               findings := [] },
      tools := st, world := { w with fs := fs' }, effs := [Eff.runCmd CSite.run command] }
  | (ProcOutcome.failedLaunch msg, fs') =>
    { res := { tool_name := name, command := command, success := false, output := "",
               error := msg, execution_time := env.elapsed, findings := [] },
      tools := st, world := { w with fs := fs' }, effs := [Eff.runCmd CSite.run command] }

/-- `ToolExecutor.execute` (lines 871-977): key/installed/prober
precondition failures return failed results (the prober failure also
corrects `installed` to `False` and persists); otherwise the run command
is built, whitespace-collapsed, extended with `extra_args`, and run with
findings extracted from stdout only when the exit status is zero. -/
def executeOp (cat : Catalog) (env : Env) (w : World) (st : Tools)
    (name target extraArgs : String) : ExecOpRes :=
  match lookupTool cat name with
  | none =>
    { res := { tool_name := name, command := "", success := false, output := "",
               error := "Unknown tool: " ++ name, execution_time := 0, findings := [] },
      tools := st, world := w, effs := [] }
  | some tool =>
    if !(st name).installed then
      { res := { tool_name := name, command := "", success := false, output := "",
                 error := tool.name ++ " is not installed", execution_time := 0, findings := [] },
        tools := st, world := w, effs := [] }
    else if !(isToolAvailable w.fs name tool) then
      let st1 := setTool st name (fun t => { t with installed := false })
      { res := { tool_name := name, command := "", success := false, output := "",
                 error := tool.name ++ " installation is incomplete. Run: python tool_manager.py install " ++ name,
                 execution_time := 0, findings := [] },
        tools := st1, world := { w with file := some (saveStateFile cat st1) },
        effs := [Eff.saveState] }
    else
      runAndExtract env w st name (buildRunCommand env tool target extraArgs)

/-! ### Concrete fixtures (a POSIX host with `PYTHON_CMD = "python3"` and
tools base directory `/base`) used by witnesses and counterexamples -/

/-- The registry on the fixture host. -/
def rtCatalog : Catalog := getAllTools "python3" "/base"

/-- Placeholder descriptor (only used as a `getD` default below). -/
def dummyTool : SecurityTool :=
  { name := "", repo := "", tool_type := ToolType.recon, description := ""
    install_cmd := "", install_cmd_win := "", runCmd := "", runCmdWin := ""
    update_cmd := "", update_cmd_win := "", version_cmd := "", version_cmd_win := ""
    install_path := none, requires_go := false }

/-- The registry's sqlmap descriptor. -/
def rtSqlmap : SecurityTool := (lookupTool rtCatalog "sqlmap").getD dummyTool

/-- A filesystem with nothing installed. -/
def fsEmpty : FS :=
  { pathExists := fun _ => false, dirHasEntries := fun _ => false, whichOk := fun _ => false }

/-- A filesystem where sqlmap's clone directory and required file exist. -/
def fsSqlmapInstalled : FS :=
  { pathExists := fun p => p = "/base/sqlmap" || p = "/base/sqlmap/sqlmap.py"
    dirHasEntries := fun _ => false
    whichOk := fun _ => false }

/-- Empty world (no state file). -/
def wEmpty : World := { fs := fsEmpty, file := none }

/-- World with sqlmap present on disk. -/
def wInstalled : World := { fs := fsSqlmapInstalled, file := none }

/-- The formatted sqlmap install command on the fixture host. -/
def sqlmapInstallCmd : String :=
  pyFormatPath (getCommand false rtSqlmap CSite.install) rtSqlmap.install_path

/-- The formatted sqlmap version-check command on the fixture host. -/
def sqlmapVersionCmd : String :=
  pyFormatPath (getCommand false rtSqlmap CSite.version) rtSqlmap.install_path

/-- Environment in which every command exits 0 and running the sqlmap
install command brings the sqlmap files into existence. -/
def envInstallOk : Env :=
  { isWindows := false, now := "2026-01-01T00:00:00", elapsed := 1
    proc := fun fs cmd =>
      if cmd = sqlmapInstallCmd then (ProcOutcome.completed 0 "" "", fsSqlmapInstalled)
      else (ProcOutcome.completed 0 "" "", fs)
    rmtree := fun fs _ => (true, fs)
    release := fun _ => none }

/-- Environment in which every command exits 0 and the sqlmap
version-check command prints `v9.9.9`. -/
def envVersionNine : Env :=
  { isWindows := false, now := "2026-01-01T00:00:00", elapsed := 1
    proc := fun fs cmd =>
      (ProcOutcome.completed 0 (if cmd = sqlmapVersionCmd then "v9.9.9" else "") "", fs)
    rmtree := fun fs _ => (true, fs)
    release := fun _ => none }

/-- Environment in which every command exits 1 with empty output. -/
def envAllFail : Env :=
  { isWindows := false, now := "2026-01-01T00:00:00", elapsed := 1
    proc := fun fs _ => (ProcOutcome.completed 1 "" "", fs)
    rmtree := fun fs _ => (true, fs)
    release := fun _ => none }

/-- Environment in which every command exits 1 but emits stdout that the
sqlmap extractor would match. -/
def envFailVuln : Env :=
  { isWindows := false, now := "2026-01-01T00:00:00", elapsed := 1
    proc := fun fs _ =>
      (ProcOutcome.completed 1 "parameter id is injectable; target is vulnerable" "", fs)
    rmtree := fun fs _ => (true, fs)
    release := fun _ => none }

/-- Environment whose oracle reports version `1.0.0` for sqlmap. -/
def envOracleSame : Env :=
  { isWindows := false, now := "2026-01-01T00:00:00", elapsed := 1
    proc := fun fs _ => (ProcOutcome.completed 0 "" "", fs)
    rmtree := fun fs _ => (true, fs)
    release := fun r =>
      if r = "sqlmapproject/sqlmap" then
        some { version := "1.0.0", published_at := "", html_url := "", body := "" }
      else none }

/-- State map: sqlmap installed at version `1.0.0`. -/
def stSqlmapInstalled : Tools := fun n =>
  if n = "sqlmap" then
    { installed := true, local_version := "1.0.0", latest_version := ""
      last_updated := "2025-01-01T00:00:00" }
  else initToolState

/-- State map: sqlmap marked installed at `1.2.3` (used to exhibit the
stale-state correction). -/
def stSqlmapV123 : Tools := fun n =>
  if n = "sqlmap" then
    { installed := true, local_version := "1.2.3", latest_version := "", last_updated := "T1" }
  else initToolState

/-! ### Generic helper lemmas -/

theorem setTool_same (st : Tools) (k : String) (f : ToolState → ToolState) :
    setTool st k f k = f (st k) := by
  simp [setTool]

theorem setTool_other (st : Tools) (k : String) (f : ToolState → ToolState) (m : String)
    (h : ¬ m = k) : setTool st k f m = st m := by
  simp [setTool, h]

/-- The `ToolState` invariant of the specification: an uninstalled tool
has empty `local_version` and `last_updated`. -/
def invToolState (t : ToolState) : Prop :=
  t.installed = false → t.local_version = "" ∧ t.last_updated = ""

theorem invToolState_of_installed {t : ToolState} (h : t.installed = true) : invToolState t := by
  intro hc
  rw [h] at hc
  cases hc

/-! ### Invariant preservation lemmas (claim C1) -/

theorem syncInstalledState_inv (cat : Catalog) (fs : FS) :
    ∀ st : Tools, (∀ n, invToolState (st n)) →
      ∀ n, invToolState ((syncInstalledState cat fs st).1 n) := by
  induction cat with
  | nil =>
    intro st h n
    simpa [syncInstalledState] using h n
  | cons p rest ih =>
    intro st h n
    obtain ⟨k, tool⟩ := p
    simp only [syncInstalledState]
    split
    · dsimp only
      apply ih
      intro m
      by_cases hm : m = k
      · subst hm
        rw [setTool_same]
        split
        · exact invToolState_of_installed rfl
        · intro _
          exact ⟨rfl, rfl⟩
      · rw [setTool_other _ _ _ _ hm]
        exact h m
    · exact ih st h n

theorem installTool_inv (cat : Catalog) (env : Env) (w : World) (st : Tools) (name : String)
    (h : ∀ n, invToolState (st n)) :
    ∀ n, invToolState ((installTool cat env w st name).tools n) := by
  intro n
  unfold installTool
  split
  · exact h n
  · dsimp only
    split
    · exact h n
    · split
      · -- already-available branch
        dsimp only
        by_cases hn : n = name
        · subst hn
          split
          · rw [setTool_same]
            exact invToolState_of_installed (by rw [setTool_same, setTool_same])
          · rw [setTool_same, setTool_same]
            exact invToolState_of_installed rfl
        · split
          · rw [setTool_other _ _ _ _ hn, setTool_other _ _ _ _ hn, setTool_other _ _ _ _ hn]
            exact h n
          · rw [setTool_other _ _ _ _ hn, setTool_other _ _ _ _ hn]
            exact h n
      · split
        · exact h n
        · split
          · -- successful install
            dsimp only
            by_cases hn : n = name
            · subst hn
              rw [setTool_same]
              exact invToolState_of_installed (by rw [setTool_same])
            · rw [setTool_other _ _ _ _ hn, setTool_other _ _ _ _ hn]
              exact h n
          · exact h n

/-! ### Effect-trace lemmas -/

theorem checkRequirements_effs (env : Env) (fs : FS) (tool : SecurityTool) :
    ∀ e ∈ (checkRequirements env fs tool).effs,
      e = Eff.runCmd CSite.reqGit "git --version" ∨ e = Eff.runCmd CSite.reqGo "go version" := by
  intro e he
  by_cases h1 : (runShell env fs "git --version").ok
  · by_cases h2 : tool.requires_go
    · by_cases h3 : (runShell env (runShell env fs "git --version").fs "go version").ok
      · simp [checkRequirements, h1, h2, h3] at he
        tauto
      · simp [checkRequirements, h1, h2, h3] at he
        tauto
    · simp [checkRequirements, h1, h2] at he
      tauto
  · simp [checkRequirements, h1] at he
    tauto

theorem getLocalVersion_effs (env : Env) (fs : FS) (tool : SecurityTool) :
    ∀ e ∈ (getLocalVersion env fs tool).effs, ∃ c, e = Eff.runCmd CSite.version c := by
  intro e he
  by_cases h : getCommand env.isWindows tool CSite.version = ""
  · simp [getLocalVersion, h] at he
  · simp [getLocalVersion, h] at he
    exact ⟨_, he⟩

theorem staleCleanup_effs (env : Env) (fs : FS) (tool : SecurityTool) :
    ∀ e ∈ (staleCleanup env fs tool).effs, ∃ p, e = Eff.rmtreeCall p := by
  intro e he
  by_cases h1 : containsSub "git clone" tool.install_cmd
  · rcases hp : tool.install_path with _ | p
    · simp [staleCleanup, h1, hp] at he
    · by_cases h2 : fs.pathExists p
      · simp [staleCleanup, h1, hp, h2] at he
        exact ⟨_, he⟩
      · simp [staleCleanup, h1, hp, h2] at he
  · simp [staleCleanup, h1] at he

theorem installTool_no_update_run (cat : Catalog) (env : Env) (w : World) (st : Tools)
    (name : String) (c : String) :
    Eff.runCmd CSite.update c ∉ (installTool cat env w st name).effs := by
  intro hmem
  rcases hl : lookupTool cat name with _ | tool
  · simp [installTool, hl] at hmem
  · simp only [installTool, hl] at hmem
    split at hmem
    · rcases checkRequirements_effs _ _ _ _ hmem with h | h <;> simp at h
    · split at hmem
      · simp only [List.mem_append, List.mem_singleton] at hmem
        rcases hmem with (hm | hm) | hm
        · rcases checkRequirements_effs _ _ _ _ hm with h | h <;> simp at h
        · obtain ⟨c', hc'⟩ := getLocalVersion_effs _ _ _ _ hm
          simp at hc'
        · simp at hm
      · split at hmem
        · simp only [List.mem_append] at hmem
          rcases hmem with hm | hm
          · rcases checkRequirements_effs _ _ _ _ hm with h | h <;> simp at h
          · obtain ⟨p, hp⟩ := staleCleanup_effs _ _ _ _ hm
            simp at hp
        · split at hmem
          · simp only [List.mem_append, List.mem_singleton] at hmem
            rcases hmem with (((hm | hm) | hm) | hm) | hm
            · rcases checkRequirements_effs _ _ _ _ hm with h | h <;> simp at h
            · obtain ⟨p, hp⟩ := staleCleanup_effs _ _ _ _ hm
              simp at hp
            · simp at hm
            · obtain ⟨c', hc'⟩ := getLocalVersion_effs _ _ _ _ hm
              simp at hc'
            · simp at hm
          · simp only [List.mem_append, List.mem_singleton] at hmem
            rcases hmem with (hm | hm) | hm
            · rcases checkRequirements_effs _ _ _ _ hm with h | h <;> simp at h
            · obtain ⟨p, hp⟩ := staleCleanup_effs _ _ _ _ hm
              simp at hp
            · simp at hm

/-! ### Claim C1 -/

/-- C1 counterexample: the stale-state correction in `ToolExecutor.execute`
sets `installed := False` but does not clear `local_version` or
`last_updated`.  Starting from sqlmap marked installed at version `1.2.3`
on an empty filesystem, the corrected state has `installed = false` with
`local_version = "1.2.3"`, violating the invariant the claim asserts. -/
theorem claim_C1_counterexample :
    (((executeOp rtCatalog envAllFail wEmpty stSqlmapV123 "sqlmap" "http://target" "").tools
        "sqlmap").installed = false)
    ∧ (((executeOp rtCatalog envAllFail wEmpty stSqlmapV123 "sqlmap" "http://target" "").tools
        "sqlmap").local_version = "1.2.3")
    ∧ ¬ invToolState
        ((executeOp rtCatalog envAllFail wEmpty stSqlmapV123 "sqlmap" "http://target" "").tools
          "sqlmap") := by
  refine ⟨by decide, by decide, fun hinv => ?_⟩
  have h2 := hinv (by decide)
  exact absurd h2.1 (by decide)

/-- C1 (amended): the invariant "`installed = false` implies
`local_version` and `last_updated` are empty" is preserved by the startup
reconcile (`_sync_installed_state`) and by `install_tool`; the
stale-state corrections in `execute` and in `update_tool`'s
implicit-install step set `installed := False` without clearing the two
fields, so the original claim fails there (see the counterexample). -/
theorem claim_C1_invariant_reconcile_and_install :
    (∀ (cat : Catalog) (fs : FS) (st : Tools), (∀ n, invToolState (st n)) →
      ∀ n, invToolState ((syncInstalledState cat fs st).1 n))
    ∧ (∀ (cat : Catalog) (env : Env) (w : World) (st : Tools) (name : String),
        (∀ n, invToolState (st n)) →
        ∀ n, invToolState ((installTool cat env w st name).tools n)) :=
  ⟨syncInstalledState_inv, installTool_inv⟩

/-- C1 witness: both parts of the amended invariant theorem instantiated
on the default state, the fixture registry and a concrete reconcile and
install run. -/
theorem claim_C1_witness :
    (∀ n, invToolState (initTools n))
    ∧ invToolState ((syncInstalledState rtCatalog fsSqlmapInstalled initTools).1 "sqlmap")
    ∧ invToolState
        ((installTool rtCatalog envVersionNine wInstalled initTools "sqlmap").tools "sqlmap") :=
  ⟨fun _ _ => ⟨rfl, rfl⟩,
   claim_C1_invariant_reconcile_and_install.1 rtCatalog fsSqlmapInstalled initTools
     (fun _ _ => ⟨rfl, rfl⟩) "sqlmap",
   claim_C1_invariant_reconcile_and_install.2 rtCatalog envVersionNine wInstalled initTools
     "sqlmap" (fun _ _ => ⟨rfl, rfl⟩) "sqlmap"⟩

/-! ### Claim C2 -/

/-- C2: for a tool that is not already available when `install_tool`
probes it, a reported success implies that the install command's run
exited 0 AND that the availability prober passes on the post-install
filesystem (`is_success = success and self._is_tool_available(...)`). -/
theorem claim_C2_install_success_requires_exit0_and_prober
    (cat : Catalog) (env : Env) (w : World) (st : Tools) (name : String) (tool : SecurityTool)
    (hlook : lookupTool cat name = some tool)
    (hunavail : isToolAvailable (checkRequirements env w.fs tool).fs name tool = false)
    (hok : (installTool cat env w st name).ok = true) :
    (runShell env (staleCleanup env (checkRequirements env w.fs tool).fs tool).fs
        (pyFormatPath (getCommand env.isWindows tool CSite.install) tool.install_path)).ok = true
    ∧ isToolAvailable
        (runShell env (staleCleanup env (checkRequirements env w.fs tool).fs tool).fs
          (pyFormatPath (getCommand env.isWindows tool CSite.install) tool.install_path)).fs
        name tool = true := by
  by_cases h1 : (checkRequirements env w.fs tool).ok
  · by_cases h2 : (staleCleanup env (checkRequirements env w.fs tool).fs tool).ok
    · by_cases h3 : (runShell env (staleCleanup env (checkRequirements env w.fs tool).fs tool).fs
          (pyFormatPath (getCommand env.isWindows tool CSite.install) tool.install_path)).ok
      · by_cases h4 : isToolAvailable
            (runShell env (staleCleanup env (checkRequirements env w.fs tool).fs tool).fs
              (pyFormatPath (getCommand env.isWindows tool CSite.install) tool.install_path)).fs
            name tool
        · exact ⟨h3, h4⟩
        · exfalso
          simp [installTool, hlook, h1, hunavail, h2, h3, h4] at hok
      · exfalso
        simp [installTool, hlook, h1, hunavail, h2, h3] at hok
    · exfalso
      simp [installTool, hlook, h1, hunavail, h2] at hok
  · exfalso
    simp [installTool, hlook, h1] at hok

/-- C2 witness: on the fixture host, installing sqlmap from an empty
filesystem with an install command that exits 0 and creates the files,
the theorem's hypotheses hold and it yields exit 0 plus a passing
post-install probe. -/
theorem claim_C2_witness :
    lookupTool rtCatalog "sqlmap" = some rtSqlmap
    ∧ isToolAvailable (checkRequirements envInstallOk wEmpty.fs rtSqlmap).fs "sqlmap" rtSqlmap
        = false
    ∧ (installTool rtCatalog envInstallOk wEmpty initTools "sqlmap").ok = true
    ∧ ((runShell envInstallOk
          (staleCleanup envInstallOk (checkRequirements envInstallOk wEmpty.fs rtSqlmap).fs
            rtSqlmap).fs
          (pyFormatPath (getCommand envInstallOk.isWindows rtSqlmap CSite.install)
            rtSqlmap.install_path)).ok = true
        ∧ isToolAvailable
            (runShell envInstallOk
              (staleCleanup envInstallOk (checkRequirements envInstallOk wEmpty.fs rtSqlmap).fs
                rtSqlmap).fs
              (pyFormatPath (getCommand envInstallOk.isWindows rtSqlmap CSite.install)
                rtSqlmap.install_path)).fs
            "sqlmap" rtSqlmap = true) :=
  ⟨by decide, by decide, by decide,
   claim_C2_install_success_requires_exit0_and_prober rtCatalog envInstallOk wEmpty initTools
     "sqlmap" rtSqlmap (by decide) (by decide) (by decide)⟩

/-! ### Claim C6 -/

/-- C6: `update_tool` on a tool the prober reports unavailable marks it
uninstalled, persists, and delegates to `install_tool`; the whole call
never runs the update command. -/
theorem claim_C6_update_unavailable_delegates
    (cat : Catalog) (env : Env) (w : World) (st : Tools) (name : String) (tool : SecurityTool)
    (hlook : lookupTool cat name = some tool)
    (hunavail : isToolAvailable w.fs name tool = false) :
    (updateToolOp cat env w st name).ok =
      (installTool cat env
        { w with file := some (saveStateFile cat
            (setTool st name (fun t => { t with installed := false }))) }
        (setTool st name (fun t => { t with installed := false })) name).ok
    ∧ (updateToolOp cat env w st name).tools =
      (installTool cat env
        { w with file := some (saveStateFile cat
            (setTool st name (fun t => { t with installed := false }))) }
        (setTool st name (fun t => { t with installed := false })) name).tools
    ∧ (updateToolOp cat env w st name).world =
      (installTool cat env
        { w with file := some (saveStateFile cat
            (setTool st name (fun t => { t with installed := false }))) }
        (setTool st name (fun t => { t with installed := false })) name).world
    ∧ (updateToolOp cat env w st name).effs =
      Eff.saveState :: (installTool cat env
        { w with file := some (saveStateFile cat
            (setTool st name (fun t => { t with installed := false }))) }
        (setTool st name (fun t => { t with installed := false })) name).effs
    ∧ ∀ c, Eff.runCmd CSite.update c ∉ (updateToolOp cat env w st name).effs := by
  have hred : updateToolOp cat env w st name =
      { ok := (installTool cat env
          { w with file := some (saveStateFile cat
              (setTool st name (fun t => { t with installed := false }))) }
          (setTool st name (fun t => { t with installed := false })) name).ok,
        tools := (installTool cat env
          { w with file := some (saveStateFile cat
              (setTool st name (fun t => { t with installed := false }))) }
          (setTool st name (fun t => { t with installed := false })) name).tools,
        world := (installTool cat env
          { w with file := some (saveStateFile cat
              (setTool st name (fun t => { t with installed := false }))) }
          (setTool st name (fun t => { t with installed := false })) name).world,
        effs := Eff.saveState :: (installTool cat env
          { w with file := some (saveStateFile cat
              (setTool st name (fun t => { t with installed := false }))) }
          (setTool st name (fun t => { t with installed := false })) name).effs } := by
    simp [updateToolOp, hlook, hunavail]
  refine ⟨by rw [hred], by rw [hred], by rw [hred], by rw [hred], ?_⟩
  intro c hc
  rw [hred] at hc
  rcases List.mem_cons.mp hc with h | h
  · simp at h
  · exact installTool_no_update_run _ _ _ _ _ _ h

/-- C6 witness: with nothing on disk, updating sqlmap delegates to the
(here failing) install and runs no update command. -/
theorem claim_C6_witness :
    lookupTool rtCatalog "sqlmap" = some rtSqlmap
    ∧ isToolAvailable wEmpty.fs "sqlmap" rtSqlmap = false
    ∧ ((updateToolOp rtCatalog envAllFail wEmpty initTools "sqlmap").ok =
        (installTool rtCatalog envAllFail
          { wEmpty with file := some (saveStateFile rtCatalog
              (setTool initTools "sqlmap" (fun t => { t with installed := false }))) }
          (setTool initTools "sqlmap" (fun t => { t with installed := false })) "sqlmap").ok
      ∧ (updateToolOp rtCatalog envAllFail wEmpty initTools "sqlmap").tools =
        (installTool rtCatalog envAllFail
          { wEmpty with file := some (saveStateFile rtCatalog
              (setTool initTools "sqlmap" (fun t => { t with installed := false }))) }
          (setTool initTools "sqlmap" (fun t => { t with installed := false })) "sqlmap").tools
      ∧ (updateToolOp rtCatalog envAllFail wEmpty initTools "sqlmap").world =
        (installTool rtCatalog envAllFail
          { wEmpty with file := some (saveStateFile rtCatalog
              (setTool initTools "sqlmap" (fun t => { t with installed := false }))) }
          (setTool initTools "sqlmap" (fun t => { t with installed := false })) "sqlmap").world
      ∧ (updateToolOp rtCatalog envAllFail wEmpty initTools "sqlmap").effs =
        Eff.saveState :: (installTool rtCatalog envAllFail
          { wEmpty with file := some (saveStateFile rtCatalog
              (setTool initTools "sqlmap" (fun t => { t with installed := false }))) }
          (setTool initTools "sqlmap" (fun t => { t with installed := false })) "sqlmap").effs
      ∧ ∀ c, Eff.runCmd CSite.update c ∉
          (updateToolOp rtCatalog envAllFail wEmpty initTools "sqlmap").effs) :=
  ⟨by decide, by decide,
   claim_C6_update_unavailable_delegates rtCatalog envAllFail wEmpty initTools "sqlmap" rtSqlmap
     (by decide) (by decide)⟩

/-! ### Claim C4 -/

theorem extractFindings_empty (name : String) : extractFindings name "" = [] := by
  unfold extractFindings
  split
  · rw [show ("" : String).data = [] from rfl]
    simp [nucleiMatches]
  · split
    · rfl
    · split
      · rfl
      · rfl

theorem runAndExtract_findings (env : Env) (w : World) (st : Tools) (name command : String) :
    ((runAndExtract env w st name command).res.success = false →
      (runAndExtract env w st name command).res.findings = [])
    ∧ ((runAndExtract env w st name command).res.success = true →
      (runAndExtract env w st name command).res.findings =
        extractFindings name (runAndExtract env w st name command).res.output) := by
  unfold runAndExtract
  split
  · rename_i rc out err fs' heq
    constructor
    · intro h
      dsimp only at h ⊢
      have hrc : ¬ rc = 0 := by
        intro hc
        rw [hc] at h
        simp at h
      rw [if_neg hrc]
      exact extractFindings_empty name
    · intro h
      dsimp only at h ⊢
      rw [if_pos (of_decide_eq_true h)]
  · exact ⟨fun _ => rfl, fun h => absurd h (by simp)⟩
  · exact ⟨fun _ => rfl, fun h => absurd h (by simp)⟩

/-- C4: finding extraction consumes only the stdout of a successful run:
whenever the returned `ExecutionResult` is not successful (in particular
whenever the subprocess exited non-zero) its findings list is empty, and
on success the findings are exactly the extractor applied to the captured
stdout. -/
theorem claim_C4_findings_only_from_successful_stdout
    (cat : Catalog) (env : Env) (w : World) (st : Tools) (name target extraArgs : String) :
    ((executeOp cat env w st name target extraArgs).res.success = false →
      (executeOp cat env w st name target extraArgs).res.findings = [])
    ∧ ((executeOp cat env w st name target extraArgs).res.success = true →
      (executeOp cat env w st name target extraArgs).res.findings =
        extractFindings name (executeOp cat env w st name target extraArgs).res.output) := by
  unfold executeOp
  split
  · exact ⟨fun _ => rfl, fun h => absurd h (by simp)⟩
  · split
    · exact ⟨fun _ => rfl, fun h => absurd h (by simp)⟩
    · split
      · exact ⟨fun _ => rfl, fun h => absurd h (by simp)⟩
      · exact runAndExtract_findings env w st name _

/-- C4 witness: sqlmap run that exits 1 while printing text the extractor
would otherwise match still yields an empty findings list. -/
theorem claim_C4_witness :
    ((executeOp rtCatalog envFailVuln wInstalled stSqlmapInstalled "sqlmap" "http://t" "").res.success
      = false)
    ∧ ((executeOp rtCatalog envFailVuln wInstalled stSqlmapInstalled "sqlmap" "http://t" "").res.findings
      = []) :=
  ⟨by decide,
   (claim_C4_findings_only_from_successful_stdout rtCatalog envFailVuln wInstalled
     stSqlmapInstalled "sqlmap" "http://t" "").1 (by decide)⟩

/-! ### Claim C5 -/

/-- C5: `check_for_updates` returns `(False, "", note)` when the oracle
returned nothing (so an empty oracle result never signals an update),
`(False, latest, "Already up to date")` when the non-empty local version
equals the latest, and `(True, latest, note)` otherwise. -/
theorem claim_C5_check_for_updates_spec (env : Env) (tool : SecurityTool) (ts : ToolState) :
    (env.release tool.repo = none →
      (checkForUpdates env tool ts).1 = (false, "", "Could not fetch version info"))
    ∧ (∀ l, env.release tool.repo = some l → ts.local_version ≠ "" →
        ts.local_version = l.version →
        (checkForUpdates env tool ts).1 = (false, l.version, "Already up to date"))
    ∧ (∀ l, env.release tool.repo = some l →
        (ts.local_version = "" ∨ ts.local_version ≠ l.version) →
        (checkForUpdates env tool ts).1 =
          (true, l.version,
            "Latest: " ++ l.version ++ " (Current: " ++
              (if ts.local_version = "" then "Not installed" else ts.local_version) ++ ")")) := by
  refine ⟨?_, ?_, ?_⟩
  · intro h
    simp [checkForUpdates, queryOracle, checkForUpdatesCore, h]
  · intro l h hne heq
    rw [heq] at hne
    simp [checkForUpdates, queryOracle, checkForUpdatesCore, h, heq, hne]
  · intro l h hcase
    rcases hcase with hc | hc
    · simp [checkForUpdates, queryOracle, checkForUpdatesCore, h, hc]
    · simp [checkForUpdates, queryOracle, checkForUpdatesCore, h, hc]

/-- C5 witness: sqlmap at local version `1.0.0` with the oracle reporting
`1.0.0` is reported as up to date without signalling an update. -/
theorem claim_C5_witness :
    envOracleSame.release rtSqlmap.repo =
      some { version := "1.0.0", published_at := "", html_url := "", body := "" }
    ∧ (stSqlmapInstalled "sqlmap").local_version ≠ ""
    ∧ (stSqlmapInstalled "sqlmap").local_version = "1.0.0"
    ∧ (checkForUpdates envOracleSame rtSqlmap (stSqlmapInstalled "sqlmap")).1 =
        (false, "1.0.0", "Already up to date") :=
  ⟨by decide, by decide, by decide,
   (claim_C5_check_for_updates_spec envOracleSame rtSqlmap (stSqlmapInstalled "sqlmap")).2.1
     { version := "1.0.0", published_at := "", html_url := "", body := "" }
     (by decide) (by decide) (by decide)⟩

/-! ### Claim C8 -/

/-- The row `check_all_updates` would append for one catalog entry. -/
def updateRow (env : Env) (st : Tools) (p : String × SecurityTool) : Option UpdateEntry :=
  if (checkForUpdates env p.2 (st p.1)).1.1 then
    some { name := p.2.name, tool_key := p.1, current := (st p.1).local_version,
           latest := (checkForUpdates env p.2 (st p.1)).1.2.1,
           info := (checkForUpdates env p.2 (st p.1)).1.2.2 }
  else none

theorem checkAll_foldl_eq (env : Env) (st : Tools) :
    ∀ (cat : Catalog) (acc : List UpdateEntry × List Eff),
      cat.foldl (checkAllStep env st) acc =
        (acc.1 ++ cat.filterMap (updateRow env st),
         acc.2 ++ cat.map (fun p => Eff.oracleQuery p.2.repo)) := by
  intro cat
  induction cat with
  | nil => intro acc; simp
  | cons p rest ih =>
    intro acc
    simp only [List.foldl_cons, ih, List.filterMap_cons, List.map_cons]
    by_cases h : (checkForUpdatesCore (env.release p.2.repo) (st p.1).local_version).1
    · simp [checkAllStep, updateRow, checkForUpdates, queryOracle, h, List.append_assoc]
    · simp [checkAllStep, updateRow, checkForUpdates, queryOracle, h, List.append_assoc]

/-- C8: `check_all_updates` queries the oracle once per catalog tool (in
catalog order, regardless of installed state), collects exactly the tools
needing an update, and neither mutates the state map, nor the world
(filesystem/state file), nor runs any command. -/
theorem claim_C8_check_all_updates_pure (cat : Catalog) (env : Env) (w : World) (st : Tools) :
    (checkAllUpdates cat env w st).tools = st
    ∧ (checkAllUpdates cat env w st).world = w
    ∧ (checkAllUpdates cat env w st).effs = cat.map (fun p => Eff.oracleQuery p.2.repo)
    ∧ (checkAllUpdates cat env w st).entries = cat.filterMap (updateRow env st) := by
  refine ⟨rfl, rfl, ?_, ?_⟩
  · show (cat.foldl (checkAllStep env st) ([], [])).2 = _
    rw [checkAll_foldl_eq]
    simp
  · show (cat.foldl (checkAllStep env st) ([], [])).1 = _
    rw [checkAll_foldl_eq]
    simp

/-! ### Claim C9 -/

theorem lookupTool_isSome_iff_mem (cat : Catalog) (k : String) :
    (lookupTool cat k).isSome = true ↔ k ∈ cat.map Prod.fst := by
  induction cat with
  | nil => simp [lookupTool]
  | cons p rest ih =>
    obtain ⟨k0, t0⟩ := p
    by_cases h : k = k0
    · simp [lookupTool, h]
    · simp [lookupTool, h, ih]

theorem applyEntries_not_mem (cat : Catalog) :
    ∀ (entries : SaveFile) (st : Tools) (k : String), k ∉ entries.map Prod.fst →
      entries.foldl (applyEntry cat) st k = st k := by
  intro entries
  induction entries with
  | nil => intro st k _; rfl
  | cons p rest ih =>
    intro st k hk
    simp only [List.map_cons, List.mem_cons] at hk
    push_neg at hk
    simp only [List.foldl_cons]
    rw [ih _ _ hk.2]
    unfold applyEntry
    split
    · exact setTool_other _ _ _ _ hk.1
    · rfl

theorem applyEntries_saved (cat : Catalog) (st : Tools) :
    ∀ (entries : SaveFile) (st0 : Tools),
      (∀ p ∈ entries, (lookupTool cat p.1).isSome = true ∧
        p.2 = { installed := (st p.1).installed, local_version := (st p.1).local_version,
                last_updated := (st p.1).last_updated }) →
      ∀ k, k ∈ entries.map Prod.fst →
        ((entries.foldl (applyEntry cat) st0) k).installed = (st k).installed
        ∧ ((entries.foldl (applyEntry cat) st0) k).local_version = (st k).local_version
        ∧ ((entries.foldl (applyEntry cat) st0) k).last_updated = (st k).last_updated := by
  intro entries
  induction entries with
  | nil =>
    intro st0 _ k hk
    simp at hk
  | cons p rest ih =>
    intro st0 hprop k hk
    simp only [List.foldl_cons]
    by_cases hmem : k ∈ rest.map Prod.fst
    · exact ih _ (fun q hq => hprop q (List.mem_cons_of_mem _ hq)) k hmem
    · have hk0 : k = p.1 := by
        simp only [List.map_cons, List.mem_cons] at hk
        tauto
      subst hk0
      rw [applyEntries_not_mem cat rest _ _ hmem]
      have hp := hprop p (List.mem_cons_self _ _)
      simp [applyEntry, hp.1, setTool_same, hp.2]

/-- C9: persisting a state map with `_save_state` and reloading it with
`_load_state` reproduces the `{installed, local_version, last_updated}`
triple of every catalog tool, whatever state the loader started from. -/
theorem claim_C9_state_roundtrip (cat : Catalog) (st st0 : Tools) (k : String)
    (hk : (lookupTool cat k).isSome = true) :
    ((loadState cat (some (saveStateFile cat st)) st0) k).installed = (st k).installed
    ∧ ((loadState cat (some (saveStateFile cat st)) st0) k).local_version = (st k).local_version
    ∧ ((loadState cat (some (saveStateFile cat st)) st0) k).last_updated = (st k).last_updated := by
  have hkeys : (saveStateFile cat st).map Prod.fst = cat.map Prod.fst := by
    simp [saveStateFile, List.map_map, Function.comp]
  have hmem : k ∈ (saveStateFile cat st).map Prod.fst := by
    rw [hkeys]
    exact (lookupTool_isSome_iff_mem cat k).mp hk
  have hprop : ∀ p ∈ saveStateFile cat st, (lookupTool cat p.1).isSome = true ∧
      p.2 = { installed := (st p.1).installed, local_version := (st p.1).local_version,
              last_updated := (st p.1).last_updated } := by
    intro p hp
    simp only [saveStateFile, List.mem_map] at hp
    obtain ⟨q, hq, rfl⟩ := hp
    refine ⟨?_, rfl⟩
    exact (lookupTool_isSome_iff_mem cat q.1).mpr (List.mem_map_of_mem Prod.fst hq)
  exact applyEntries_saved cat st (saveStateFile cat st) st0 hprop k hmem

/-- C9 witness: round-tripping the fixture state through the state file
reproduces sqlmap's persisted triple. -/
theorem claim_C9_witness :
    (lookupTool rtCatalog "sqlmap").isSome = true
    ∧ (((loadState rtCatalog (some (saveStateFile rtCatalog stSqlmapInstalled)) initTools)
          "sqlmap").installed = (stSqlmapInstalled "sqlmap").installed
      ∧ ((loadState rtCatalog (some (saveStateFile rtCatalog stSqlmapInstalled)) initTools)
          "sqlmap").local_version = (stSqlmapInstalled "sqlmap").local_version
      ∧ ((loadState rtCatalog (some (saveStateFile rtCatalog stSqlmapInstalled)) initTools)
          "sqlmap").last_updated = (stSqlmapInstalled "sqlmap").last_updated) :=
  ⟨by decide,
   claim_C9_state_roundtrip rtCatalog stSqlmapInstalled initTools "sqlmap" (by decide)⟩

/-! ### Claim C10 -/

theorem applyEntry_latest (cat : Catalog) (st : Tools) (p : String × SavedTriple) (k : String) :
    ((applyEntry cat st p) k).latest_version = (st k).latest_version := by
  unfold applyEntry
  split
  · by_cases hk : k = p.1
    · subst hk
      rw [setTool_same]
    · rw [setTool_other _ _ _ _ hk]
  · rfl

theorem applyEntries_latest (cat : Catalog) :
    ∀ (entries : SaveFile) (st0 : Tools) (k : String),
      ((entries.foldl (applyEntry cat) st0) k).latest_version = (st0 k).latest_version := by
  intro entries
  induction entries with
  | nil => intro st0 k; rfl
  | cons p rest ih =>
    intro st0 k
    simp only [List.foldl_cons]
    rw [ih, applyEntry_latest]

theorem loadState_latest (cat : Catalog) (file : Option SaveFile) (st0 : Tools) (k : String) :
    ((loadState cat file st0) k).latest_version = (st0 k).latest_version := by
  rcases file with _ | entries
  · rfl
  · exact applyEntries_latest cat entries st0 k

theorem syncInstalledState_latest (fs : FS) :
    ∀ (cat : Catalog) (st : Tools) (k : String),
      (((syncInstalledState cat fs st).1) k).latest_version = (st k).latest_version := by
  intro cat
  induction cat with
  | nil => intro st k; rfl
  | cons p rest ih =>
    intro st k
    obtain ⟨n, tool⟩ := p
    simp only [syncInstalledState]
    split
    · dsimp only
      rw [ih]
      by_cases hk : k = n
      · subst hk
        rw [setTool_same]
        split <;> rfl
      · rw [setTool_other _ _ _ _ hk]
    · exact ih st k

/-- C10: the state store persists only `installed`, `local_version` and
`last_updated` — the serialised file is insensitive to `latest_version`,
and a freshly constructed engine (defaults, load, reconcile) has
`latest_version = ""` for every tool whatever the on-disk file holds. -/
theorem claim_C10_latest_version_not_persisted :
    (∀ (cat : Catalog) (w : World) (k : String),
      ((newUpdater cat w).1 k).latest_version = "")
    ∧ (∀ (cat : Catalog) (st : Tools) (f : String → String),
        saveStateFile cat (fun n => { st n with latest_version := f n }) = saveStateFile cat st) := by
  constructor
  · intro cat w k
    show (((syncAndSave cat w.fs (loadState cat w.file initTools) w.file).1) k).latest_version = ""
    simp only [syncAndSave]
    split <;> (rw [syncInstalledState_latest, loadState_latest]; rfl)
  · intro cat st f
    rfl

/-! ### Claim C3 -/

/-- C3 counterexample: (a) with `git --version` failing, `install_tool` on
an already-available tool reports failure, not success; (b) with all
commands succeeding, the already-available fast path still performs
subprocess work (the version-check command is in the trace) and
overwrites the non-empty `local_version` `1.0.0` with the freshly
resolved `9.9.9` instead of resolving it only when unset. -/
theorem claim_C3_counterexample :
    ((installTool rtCatalog envAllFail wInstalled stSqlmapInstalled "sqlmap").ok = false)
    ∧ ((installTool rtCatalog envVersionNine wInstalled stSqlmapInstalled "sqlmap").ok = true)
    ∧ (((installTool rtCatalog envVersionNine wInstalled stSqlmapInstalled "sqlmap").tools
        "sqlmap").local_version = "9.9.9")
    ∧ ((stSqlmapInstalled "sqlmap").local_version = "1.0.0")
    ∧ Eff.runCmd CSite.version sqlmapVersionCmd ∈
        (installTool rtCatalog envVersionNine wInstalled stSqlmapInstalled "sqlmap").effs :=
  ⟨by decide, by decide, by decide, by decide, by decide⟩

/-- C3 (amended): for a tool the prober already reports available,
`install_tool` returns success without running the install command, marks
it installed and persists; but it re-resolves `local_version`
unconditionally via the version-check command (subprocess work, and a
prerequisite `git --version` probe also runs), and only `last_updated` is
stamped solely when previously unset; moreover success additionally
requires the prerequisite check to pass. -/
theorem claim_C3_install_already_available
    (cat : Catalog) (env : Env) (w : World) (st : Tools) (name : String) (tool : SecurityTool)
    (hlook : lookupTool cat name = some tool)
    (hreq : (checkRequirements env w.fs tool).ok = true)
    (havail : isToolAvailable (checkRequirements env w.fs tool).fs name tool = true) :
    (installTool cat env w st name).ok = true
    ∧ (∀ c, Eff.runCmd CSite.install c ∉ (installTool cat env w st name).effs)
    ∧ ((installTool cat env w st name).tools name).installed = true
    ∧ ((installTool cat env w st name).tools name).local_version =
        (getLocalVersion env (checkRequirements env w.fs tool).fs tool).version
    ∧ ((installTool cat env w st name).tools name).last_updated =
        (if (st name).last_updated = "" then env.now else (st name).last_updated)
    ∧ (installTool cat env w st name).world.file =
        some (saveStateFile cat (installTool cat env w st name).tools) := by
  refine ⟨?_, ?_, ?_, ?_, ?_, ?_⟩
  · simp [installTool, hlook, hreq, havail]
  · intro c hc
    simp only [installTool, hlook, hreq, Bool.not_true, Bool.false_eq_true, if_false, havail,
      if_true] at hc
    rcases List.mem_append.mp hc with hm | hm
    · rcases List.mem_append.mp hm with hm2 | hm2
      · rcases checkRequirements_effs _ _ _ _ hm2 with h | h <;> simp at h
      · obtain ⟨c', hc'⟩ := getLocalVersion_effs _ _ _ _ hm2
        simp at hc'
    · simp at hm
  · by_cases hlast : (st name).last_updated = "" <;>
      simp [installTool, hlook, hreq, havail, setTool_same, hlast]
  · by_cases hlast : (st name).last_updated = "" <;>
      simp [installTool, hlook, hreq, havail, setTool_same, hlast]
  · by_cases hlast : (st name).last_updated = "" <;>
      simp [installTool, hlook, hreq, havail, setTool_same, hlast]
  · by_cases hlast : (st name).last_updated = "" <;>
      simp [installTool, hlook, hreq, havail, setTool_same, hlast]

/-- C3 witness: the amended theorem instantiated with sqlmap available on
disk, all commands succeeding and the version command printing `v9.9.9`. -/
theorem claim_C3_witness :
    lookupTool rtCatalog "sqlmap" = some rtSqlmap
    ∧ (checkRequirements envVersionNine wInstalled.fs rtSqlmap).ok = true
    ∧ isToolAvailable (checkRequirements envVersionNine wInstalled.fs rtSqlmap).fs "sqlmap"
        rtSqlmap = true
    ∧ ((installTool rtCatalog envVersionNine wInstalled stSqlmapInstalled "sqlmap").ok = true
      ∧ (∀ c, Eff.runCmd CSite.install c ∉
          (installTool rtCatalog envVersionNine wInstalled stSqlmapInstalled "sqlmap").effs)
      ∧ (((installTool rtCatalog envVersionNine wInstalled stSqlmapInstalled "sqlmap").tools
          "sqlmap").installed = true)
      ∧ (((installTool rtCatalog envVersionNine wInstalled stSqlmapInstalled "sqlmap").tools
          "sqlmap").local_version =
          (getLocalVersion envVersionNine
            (checkRequirements envVersionNine wInstalled.fs rtSqlmap).fs rtSqlmap).version)
      ∧ (((installTool rtCatalog envVersionNine wInstalled stSqlmapInstalled "sqlmap").tools
          "sqlmap").last_updated =
          (if (stSqlmapInstalled "sqlmap").last_updated = "" then envVersionNine.now
           else (stSqlmapInstalled "sqlmap").last_updated))
      ∧ ((installTool rtCatalog envVersionNine wInstalled stSqlmapInstalled "sqlmap").world.file =
          some (saveStateFile rtCatalog
            (installTool rtCatalog envVersionNine wInstalled stSqlmapInstalled
              "sqlmap").tools))) :=
  ⟨by decide, by decide, by decide,
   claim_C3_install_already_available rtCatalog envVersionNine wInstalled stSqlmapInstalled
     "sqlmap" rtSqlmap (by decide) (by decide) (by decide)⟩

/-! ### Claim C7 -/

/-- The sixteen lowercase hexadecimal characters (codepoints 48-57 are
the digits, 97-102 are a-f). -/
def hexLowerChars : List Char :=
  [Char.ofNat 48, Char.ofNat 49, Char.ofNat 50, Char.ofNat 51, Char.ofNat 52,
   Char.ofNat 53, Char.ofNat 54, Char.ofNat 55, Char.ofNat 56, Char.ofNat 57,
   Char.ofNat 97, Char.ofNat 98, Char.ofNat 99, Char.ofNat 100, Char.ofNat 101,
   Char.ofNat 102]

theorem hexLowerChar_facts (c : Char) (hc : c ∈ hexLowerChars) :
    Char.toLower c = c ∧ c ≠ '.' ∧ c ≠ '\n' ∧ c ≠ 'v' ∧ c ≠ 'V'
    ∧ isHexCI c = true ∧ isLowerHex c = true ∧ isPySpace c = false := by
  fin_cases hc <;> decide

theorem matchTripleAt_none (cs : List Char) (h : ∀ c ∈ cs, c ≠ '.') :
    matchTripleAt cs = none := by
  unfold matchTripleAt
  by_cases h1 : (cs.takeWhile isDigitCh).isEmpty
  · simp [h1]
  · simp only [h1, Bool.false_eq_true, if_false]
    rcases hd : cs.drop (cs.takeWhile isDigitCh).length with _ | ⟨d, rest⟩
    · rfl
    · have hdm : d ∈ cs :=
        List.drop_subset _ _ (by rw [hd]; exact List.mem_cons_self _ _)
      dsimp only
      rw [if_neg (h d hdm)]

theorem tryTripleAt_none (cs : List Char) (h : ∀ c ∈ cs, c ≠ '.') :
    tryTripleAt cs = none := by
  unfold tryTripleAt
  split
  · rfl
  · rename_i c rest
    have hrest : ∀ d ∈ rest, d ≠ '.' := fun d hd => h d (List.mem_cons_of_mem _ hd)
    split
    · rw [matchTripleAt_none rest hrest]
      exact matchTripleAt_none _ h
    · exact matchTripleAt_none _ h

theorem searchTripleL_none (cs : List Char) (h : ∀ c ∈ cs, c ≠ '.') :
    searchTripleL cs = none := by
  induction cs with
  | nil => rfl
  | cons c t ih =>
    unfold searchTripleL
    rw [tryTripleAt_none _ h]
    exact ih (fun d hd => h d (List.mem_cons_of_mem _ hd))

theorem startsWithVersionCI_false (cs : List Char)
    (h : ∀ c ∈ cs, Char.toLower c ≠ 'v') : startsWithVersionCI cs = false := by
  unfold startsWithVersionCI
  cases cs with
  | nil => rfl
  | cons c t =>
    apply decide_eq_false
    intro heq
    have h7 : List.take 7 (c :: t) = c :: List.take 6 t := rfl
    rw [h7, List.map_cons,
      show ("version".data : List Char) = 'v' :: "ersion".data from rfl] at heq
    injection heq with h1 _
    exact h c (List.mem_cons_self _ _) h1

theorem searchVersionL_none (cs : List Char) (h : ∀ c ∈ cs, Char.toLower c ≠ 'v') :
    searchVersionL cs = none := by
  induction cs with
  | nil => rfl
  | cons c t ih =>
    unfold searchVersionL
    have h1 : tryVersionAt (c :: t) = none := by
      unfold tryVersionAt
      rw [startsWithVersionCI_false _ h]
      rfl
    rw [h1]
    exact ih (fun d hd => h d (List.mem_cons_of_mem _ hd))

theorem takeWhileAll (p : Char → Bool) : ∀ (l : List Char), (∀ c ∈ l, p c = true) →
    l.takeWhile p = l := by
  intro l
  induction l with
  | nil => intro _; rfl
  | cons c t ih =>
    intro h
    have hc : p c = true := h c (List.mem_cons_self _ _)
    simp only [List.takeWhile_cons, hc, if_true]
    rw [ih (fun d hd => h d (List.mem_cons_of_mem _ hd))]

theorem splitOnNL_single (cs : List Char) (h : ∀ c ∈ cs, c ≠ '\n') :
    splitOnNL cs = [cs] := by
  induction cs with
  | nil => rfl
  | cons c t ih =>
    unfold splitOnNL
    have hc : ¬ c = '\n' := h c (List.mem_cons_self _ _)
    rw [if_neg hc, ih (fun d hd => h d (List.mem_cons_of_mem _ hd))]

theorem resolveVersion_lower_hex (s : List Char) (hchars : ∀ c ∈ s, c ∈ hexLowerChars)
    (hlen8 : 8 ≤ s.length) (hlen40 : s.length ≤ 40) :
    resolveVersion true (String.mk s) "" = String.mk (s.take 7) := by
  have hfacts := fun c hc => hexLowerChar_facts c (hchars c hc)
  have hdot : ∀ c ∈ s, c ≠ '.' := fun c hc => (hfacts c hc).2.1
  have hnl : ∀ c ∈ s, c ≠ '\n' := fun c hc => (hfacts c hc).2.2.1
  have hv : ∀ c ∈ s, Char.toLower c ≠ 'v' := fun c hc => by
    rw [(hfacts c hc).1]
    exact (hfacts c hc).2.2.2.1
  have hhex : ∀ c ∈ s, isHexCI c = true := fun c hc => (hfacts c hc).2.2.2.2.2.1
  have hlow : ∀ c ∈ s, isLowerHex c = true := fun c hc => (hfacts c hc).2.2.2.2.2.2.1
  have hdata : (String.mk s).data ++ ("" : String).data = s := by
    show s ++ [] = s
    exact List.append_nil s
  have hfind : findPatternToken s = some s := by
    unfold findPatternToken
    rw [searchTripleL_none s hdot, searchVersionL_none s hv, splitOnNL_single s hnl]
    show searchHexLine [s] = some s
    have hmatch : hexLineMatch s = some s := by
      unfold hexLineMatch
      simp only [takeWhileAll isHexCI s hhex, List.drop_length, List.all_nil, Bool.and_true]
      have hcond : (decide (7 ≤ s.length) && decide (s.length ≤ 40)) = true := by
        simp only [Bool.and_eq_true, decide_eq_true_eq]
        omega
      rw [if_pos hcond]
    unfold searchHexLine
    rw [hmatch]
  have hshort : isShortHashToken s = true := by
    unfold isShortHashToken
    have hall : s.all isLowerHex = true := List.all_eq_true.mpr hlow
    simp only [hall, Bool.true_and, Bool.and_eq_true, decide_eq_true_eq]
    omega
  unfold resolveVersion
  rw [if_pos rfl, hdata, hfind]
  simp only [hshort, if_true]

/-- C7 counterexample: a 40-character line of UPPER-case hexadecimal
matches the bare-hex pattern (which is searched case-insensitively), but
the short-hash `re.fullmatch` is case-sensitive, so the token is returned
in full rather than truncated to its first 7 characters as the claim
requires for every 8-40 character hex token. -/
theorem claim_C7_counterexample :
    resolveVersion true "ABCDEF1234ABCDEF1234ABCDEF1234ABCDEF1234" "" =
      "ABCDEF1234ABCDEF1234ABCDEF1234ABCDEF1234"
    ∧ resolveVersion true "ABCDEF1234ABCDEF1234ABCDEF1234ABCDEF1234" "" ≠
      String.mk (("ABCDEF1234ABCDEF1234ABCDEF1234ABCDEF1234" : String).data.take 7) :=
  ⟨by decide, by decide⟩

/-- C7 (amended): the resolver applies the ordered patterns
first-match-wins; a matched token that is a LOWERCASE hex string of 8-40
characters is truncated to its first 7 characters (the `re.fullmatch`
short-hash check is case-sensitive, although the bare-hex line pattern
itself matches case-insensitively); with no match and a successful
command the result is the first 20 characters of trimmed stdout, or
`"installed"` for empty stdout; a failed command yields `"unknown"`;
`"v1.2.3 release"` resolves to `"1.2.3"` and any lowercase hex line of
8-40 characters (in particular 40) to its first 7 characters. -/
theorem claim_C7_version_resolver :
    (∀ out err : String, resolveVersion false out err = "unknown")
    ∧ (∀ (out err : String) (v : List Char),
        findPatternToken (out.data ++ err.data) = some v → isShortHashToken v = true →
        resolveVersion true out err = String.mk (v.take 7))
    ∧ (∀ (out err : String) (v : List Char),
        findPatternToken (out.data ++ err.data) = some v → isShortHashToken v = false →
        resolveVersion true out err = String.mk v)
    ∧ (∀ out err : String, findPatternToken (out.data ++ err.data) = none →
        resolveVersion true out err =
          (if out = "" then "installed" else String.mk ((pyStrip out.data).take 20)))
    ∧ resolveVersion true "v1.2.3 release" "" = "1.2.3"
    ∧ (∀ s : List Char, (∀ c ∈ s, c ∈ hexLowerChars) → 8 ≤ s.length → s.length ≤ 40 →
        resolveVersion true (String.mk s) "" = String.mk (s.take 7))
    ∧ resolveVersion true "" "" = "installed" := by
  refine ⟨fun _ _ => rfl, ?_, ?_, ?_, by decide, resolveVersion_lower_hex, by decide⟩
  · intro out err v hfind hshort
    unfold resolveVersion
    rw [if_pos rfl, hfind]
    simp only [hshort, if_true]
  · intro out err v hfind hshort
    unfold resolveVersion
    rw [if_pos rfl, hfind]
    simp only [hshort, Bool.false_eq_true, if_false]
  · intro out err hfind
    unfold resolveVersion
    rw [if_pos rfl, hfind]

/-- C7 witness: the amended theorem's general lowercase-hex clause
instantiated at a concrete 40-character lowercase hex line. -/
theorem claim_C7_witness :
    (∀ c ∈ ("0123456789abcdef0123456789abcdef01234567" : String).data, c ∈ hexLowerChars)
    ∧ 8 ≤ ("0123456789abcdef0123456789abcdef01234567" : String).data.length
    ∧ ("0123456789abcdef0123456789abcdef01234567" : String).data.length ≤ 40
    ∧ resolveVersion true
        (String.mk ("0123456789abcdef0123456789abcdef01234567" : String).data) "" =
        String.mk (("0123456789abcdef0123456789abcdef01234567" : String).data.take 7) :=
  ⟨by decide, by decide, by decide,
   claim_C7_version_resolver.2.2.2.2.2.1
     ("0123456789abcdef0123456789abcdef01234567" : String).data
     (by decide) (by decide) (by decide)⟩
